import Mathlib

/-!
# OTP ledger store of `subroll/sqetest`

A shallow embedding of `internal/repository/user.go` (`StoreOTP`, `UpdateOTPStatus`,
`GetUserIDByUUID`), of the service (`internal/service/user.go`), of the REST handlers
(`internal/delivery/rest/user.go`), of the digit generator
(`internal/pkg/stringutil/number.go`) and of the configuration loader
(`internal/pkg/config/config.go`).

* The `otps` table is a list of rows in insertion order.
* A transaction works on a copy of the table; the committed table is replaced by the
  copy only when `tx.Commit()` succeeds; every other exit runs the deferred
  `tx.Rollback()` and leaves the committed table as it was.
* Each database step may fail; `Faults` says which steps fail (if they are reached) and
  with which driver message.
* `nowFunc` is the injected clock; `nowFunc k` is the reading of its `k`-th call inside
  one operation.
* The service and the handlers depend on interfaces; an implementation of an interface is
  a record of functions that transform a state, so a call that did not happen leaves no
  trace in the state.
* `RandomNumbers` reads from a finite stream of bytes and takes a bound on the rounds of
  its outer loop.
-/

namespace Sqetest

/-! ## Data model -/

/-- Instants (`time.Time`), in nanoseconds. `After` is `>` and `Before` is `<`. -/
abbrev Time := Int

/-- One minute (`time.Minute`), in nanoseconds. -/
def Minute : Int := 60 * 1000000000

/-- The zero value of `time.Time` (January 1, year 1, 00:00 UTC) relative to the Unix epoch. -/
def zeroTime : Time := -62135596800 * 1000000000

/-- Errors returned by the repository: the four sentinel errors of `user.go`, and an
error produced by the database driver (carrying its message). -/
inductive Error where
  | ErrNotFound
  | ErrOTPExist
  | ErrOTPExpired
  | ErrInvalidOTP
  | StoreError (msg : String)
  deriving DecidableEq, Repr

/-- Status constant `otpStatusUnused = iota`. -/
abbrev otpStatusUnused : Nat := 0
/-- Status constant `otpStatusUsed`. -/
abbrev otpStatusUsed : Nat := 1
/-- Status constant `otpStatusExpired`. -/
abbrev otpStatusExpired : Nat := 2

/-- A row of table `otps`, with the columns the repository reads or writes. -/
structure OTP where
  id : Nat
  user_id : Nat
  otp : String
  request_id : String
  status : Nat
  expired_at : Time
  deriving DecidableEq, Repr

/-- The committed content of table `otps`, rows in insertion order. -/
abbrev Ledger := List OTP

/-- Which database steps fail when reached, each with the driver's message. -/
structure Faults where
  beginTx : Option String
  query : Option String
  execUpdate : Option String
  execInsert : Option String
  commit : Option String
  deriving DecidableEq, Repr

/-- A database on which every step succeeds. -/
def noFaults : Faults :=
  { beginTx := none, query := none, execUpdate := none, execInsert := none, commit := none }

/-! ## SQL statements -/

/-- Rows of `SELECT id, expired_at FROM otps WHERE user_id = ? AND status = ? FOR UPDATE;`
as `QueryRowContext(..).Scan` sees them: the first matching row, or none (`sql.ErrNoRows`). -/
def selectByUserStatus (db : Ledger) (userID : Nat) (status : Nat) : Option (Nat × Time) :=
  (db.find? (fun r => r.user_id == userID && r.status == status)).map
    (fun r => (r.id, r.expired_at))

/-- Rows of `SELECT id, expired_at FROM otps WHERE user_id = ? AND otp = ? AND status = ?
FOR UPDATE;` as `QueryRowContext(..).Scan` sees them. -/
def selectByUserOTPStatus (db : Ledger) (userID : Nat) (otp : String) (status : Nat) :
    Option (Nat × Time) :=
  (db.find? (fun r => r.user_id == userID && r.otp == otp && r.status == status)).map
    (fun r => (r.id, r.expired_at))

/-- Effect of `UPDATE otps SET status = ? WHERE id = ?;`. -/
def updateStatus (db : Ledger) (status : Nat) (id : Nat) : Ledger :=
  db.map (fun r => if r.id = id then { r with status := status } else r)

/-- Modelled from the spec: the schema of table `otps` is not part of the sources. The
surrogate key `id` is assigned by the ledger, unique and in creation order: the next key is
one more than the largest key present (so it is positive). -/
def nextID (db : Ledger) : Nat :=
  (db.map (fun r => r.id)).foldr max 0 + 1

/-- Effect of `INSERT INTO otps (user_id, otp, request_id, expired_at) VALUES (?, ?, ?, ?);`.
Modelled from the spec: the columns the statement does not name take the schema's defaults,
`id` the next surrogate key and `status` Unused. -/
def insertOTP (db : Ledger) (userID : Nat) (otp requestID : String) (expiredAt : Time) :
    Ledger :=
  db ++ [{ id := nextID db, user_id := userID, otp := otp, request_id := requestID,
           status := otpStatusUnused, expired_at := expiredAt }]

/-! ## Repository operations -/

/-- `User.StoreOTP`: returned error (`none` is `nil`) and committed table after the call. -/
def StoreOTP (fl : Faults) (nowFunc : Nat → Time) (db : Ledger) (userID : Nat)
    (otp requestID : String) : Option Error × Ledger :=
  match fl.beginTx with
  | some e => (some (Error.StoreError e), db)
  | none =>
    match fl.query with
    | some e => (some (Error.StoreError e), db)
    | none =>
      -- `uid` and `expiredAt` keep their zero values when there is no row
      let row := (selectByUserStatus db userID otpStatusUnused).getD (0, zeroTime)
      let uid := row.1
      let expiredAt := row.2
      -- `&&` short-circuits: the clock is read only when `uid > 0`
      if 0 < uid ∧ nowFunc 0 < expiredAt then
        match fl.commit with
        | some e => (some (Error.StoreError e), db)
        | none => (some Error.ErrOTPExist, db)
      else
        match fl.execUpdate with
        | some e => (some (Error.StoreError e), db)
        | none =>
          let tx1 := updateStatus db otpStatusExpired uid
          let fiveMinFromNow := nowFunc (if 0 < uid then 1 else 0) + 5 * Minute
          match fl.execInsert with
          | some e => (some (Error.StoreError e), db)
          | none =>
            let tx2 := insertOTP tx1 userID otp requestID fiveMinFromNow
            match fl.commit with
            | some e => (some (Error.StoreError e), db)
            | none => (none, tx2)

/-- `User.UpdateOTPStatus`: returned error and committed table after the call. The
`requestID` argument is accepted and never used, as in the source. -/
def UpdateOTPStatus (fl : Faults) (nowFunc : Nat → Time) (db : Ledger) (userID : Nat)
    (otp : String) (_requestID : String) : Option Error × Ledger :=
  match fl.beginTx with
  | some e => (some (Error.StoreError e), db)
  | none =>
    match fl.query with
    | some e => (some (Error.StoreError e), db)
    | none =>
      match selectByUserOTPStatus db userID otp otpStatusUnused with
      | none => (some Error.ErrInvalidOTP, db)
      | some (uid, expiredAt) =>
        if expiredAt < nowFunc 0 then
          match fl.commit with
          | some e => (some (Error.StoreError e), db)
          | none => (some Error.ErrOTPExpired, db)
        else
          match fl.execUpdate with
          | some e => (some (Error.StoreError e), db)
          | none =>
            let tx1 := updateStatus db otpStatusUsed uid
            match fl.commit with
            | some e => (some (Error.StoreError e), db)
            | none => (none, tx1)

/-! ## Predicates on ledgers -/

/-- Number of rows of `userID` with status Unused. -/
def unusedCount (db : Ledger) (userID : Nat) : Nat :=
  db.countP (fun r => r.user_id == userID && r.status == otpStatusUnused)

/-- At most one row with status Unused per user. -/
def SingleUnused (db : Ledger) : Prop :=
  ∀ userID, unusedCount db userID ≤ 1

/-- Key constraint of table `otps`: `id` is a positive, unique surrogate key. (The code
itself reads `uid = 0` as "no row".) -/
def WellFormed (db : Ledger) : Prop :=
  (∀ r ∈ db, 0 < r.id) ∧ (db.map (fun r => r.id)).Nodup

instance (db : Ledger) : Decidable (WellFormed db) := by
  unfold WellFormed; infer_instance

/-- What `StoreOTP` holds in `(uid, expiredAt)` after the scan: the selected row, or the
zero values when there is no row. -/
def scannedRow (db : Ledger) (userID : Nat) : Nat × Time :=
  (selectByUserStatus db userID otpStatusUnused).getD (0, zeroTime)

/-- The id `StoreOTP` holds in `uid` after the scan. -/
def scannedID (db : Ledger) (userID : Nat) : Nat :=
  (scannedRow db userID).1

/-- The guard of `StoreOTP` line 68: `uid > 0 && expiredAt.After(u.nowFunc())`. -/
def storeRejects (nowFunc : Nat → Time) (db : Ledger) (userID : Nat) : Prop :=
  0 < (scannedRow db userID).1 ∧ nowFunc 0 < (scannedRow db userID).2

instance (nowFunc : Nat → Time) (db : Ledger) (userID : Nat) :
    Decidable (storeRejects nowFunc db userID) := by
  unfold storeRejects; infer_instance

/-- Executable form of `SingleUnused`: it is enough to count for the users of the rows. -/
def singleUnusedCheck (db : Ledger) : Bool :=
  db.all (fun r => decide (unusedCount db r.user_id ≤ 1))

/-- The same record with another status. -/
def withStatus (r : OTP) (status : Nat) : OTP :=
  { r with status := status }

/-- The ledger in which record `r` (and no other) has its status set to `status`. -/
def markStatus (db : Ledger) (r : OTP) (status : Nat) : Ledger :=
  db.map (fun x => if x = r then withStatus x status else x)

/-- The record an issue creates. -/
def newOTP (id userID : Nat) (otp requestID : String) (expiredAt : Time) : OTP :=
  { id := id, user_id := userID, otp := otp, request_id := requestID,
    status := otpStatusUnused, expired_at := expiredAt }

/-- Sample row: user 1 holds an Unused code that expires at minute 2. -/
def sampleOTP : OTP :=
  { id := 1, user_id := 1, otp := "12345", request_id := "req-1",
    status := otpStatusUnused, expired_at := 2 * Minute }

/-- Sample row of another user, already consumed. -/
def sampleUsed : OTP :=
  { id := 2, user_id := 2, otp := "54321", request_id := "req-2",
    status := otpStatusUsed, expired_at := 2 * Minute }

/-- Sample ledger. -/
def sampleLedger : Ledger := [sampleOTP, sampleUsed]

/-- One step of the store: a call of `StoreOTP` or of `UpdateOTPStatus`. -/
inductive Step : Ledger → Ledger → Prop where
  | store (fl : Faults) (nowFunc : Nat → Time) (db : Ledger) (userID : Nat)
      (otp requestID : String) :
      Step db (StoreOTP fl nowFunc db userID otp requestID).2
  | update (fl : Faults) (nowFunc : Nat → Time) (db : Ledger) (userID : Nat)
      (otp requestID : String) :
      Step db (UpdateOTPStatus fl nowFunc db userID otp requestID).2

/-- Ledgers reachable from the empty ledger by calls of the two operations. -/
inductive Reachable : Ledger → Prop where
  | empty : Reachable []
  | step {db db2 : Ledger} : Reachable db → Step db db2 → Reachable db2

/-- Allowed status change of one record: unchanged, Unused → Used, or Unused → Expired. -/
def OneWay (before after : Nat) : Prop :=
  after = before ∨
    (before = otpStatusUnused ∧ (after = otpStatusUsed ∨ after = otpStatusExpired))


/-! ## Further notions on ledgers -/

/-- Two records that agree on every column but `status`. -/
def sameButStatus (a b : OTP) : Prop :=
  a.id = b.id ∧ a.user_id = b.user_id ∧ a.otp = b.otp ∧ a.request_id = b.request_id ∧
    a.expired_at = b.expired_at

instance (a b : OTP) : Decidable (sameButStatus a b) := by
  unfold sameButStatus; infer_instance

/-- The record with another stored request id. -/
def withRequestID (g : String → String) (r : OTP) : OTP :=
  { r with request_id := g r.request_id }

/-- Issue calls for one user executed one after the other on a working database, the
`k`-th call with its own clock value, code and request id; the list holds, call by call,
the returned error and the ledger committed after the call. -/
def runStoreOTPs (db : Ledger) (userID : Nat) :
    List (Time × String × String) → List (Option Error × Ledger)
  | [] => []
  | call :: rest =>
    (StoreOTP noFaults (fun _ => call.1) db userID call.2.1 call.2.2) ::
      runStoreOTPs (StoreOTP noFaults (fun _ => call.1) db userID call.2.1 call.2.2).2
        userID rest

/-- Number of ledger mutations between two ledgers: rows whose content changed in place,
plus rows inserted at the end. -/
def mutationCount (before after : Ledger) : Nat :=
  (List.zip before after).countP (fun p => decide (p.1 ≠ p.2)) +
    (after.length - before.length)

/-! ## Identity lookup (`repository.User.GetUserIDByUUID`) -/

/-- A row of table `users`, with the columns the repository reads. -/
structure UserRow where
  id : Nat
  uuid : String
  deriving DecidableEq, Repr

/-- The database: tables `users` and `otps`. -/
structure Database where
  users : List UserRow
  otps : Ledger
  deriving DecidableEq, Repr

/-- `User.GetUserIDByUUID`: `SELECT id FROM users WHERE uuid = ?;` scanned into `id`.
`lookupFault` is the driver error of this query, if it fails. -/
def GetUserIDByUUID (lookupFault : Option String) (db : Database) (uuid : String) :
    Nat × Option Error :=
  match lookupFault with
  | some e => (0, some (Error.StoreError e))
  | none =>
    match db.users.find? (fun r => r.uuid == uuid) with
    | none => (0, some Error.ErrNotFound)
    | some r => (r.id, none)

/-! ## Service layer (`internal/service`) -/

namespace Service

/-- Constant `otpLength`. -/
def otpLength : Nat := 5

/-- Interface `UserRepository`: an implementation acts on a state `σ` and returns errors
of type `ε`. -/
structure UserRepository (σ ε : Type) where
  GetUserIDByUUID : String → σ → (Nat × Option ε) × σ
  StoreOTP : Nat → String → String → σ → Option ε × σ
  UpdateOTPStatus : Nat → String → String → σ → Option ε × σ

/-- Struct `service.User`: the repository and the injected generator
`func(uint8) (string, error)`. -/
structure User (σ ε : Type) where
  userRepo : UserRepository σ ε
  otpGenerator : Nat → σ → (String × Option ε) × σ

/-- `User.GenerateOTP`: returned `(string, error)` and the state after the call. -/
def GenerateOTP {σ ε : Type} (u : User σ ε) (userUUID requestID : String) (s : σ) :
    (String × Option ε) × σ :=
  match u.userRepo.GetUserIDByUUID userUUID s with
  | ((_, some err), s1) => (("", some err), s1)
  | ((userID, none), s1) =>
    match u.otpGenerator otpLength s1 with
    | ((_, some err), s2) => (("", some err), s2)
    | ((otp, none), s2) =>
      match u.userRepo.StoreOTP userID otp requestID s2 with
      | (some err, s3) => (("", some err), s3)
      | (none, s3) => ((otp, none), s3)

/-- `User.ValidateOTP`: returned error and the state after the call. -/
def ValidateOTP {σ ε : Type} (u : User σ ε) (userUUID otp requestID : String) (s : σ) :
    Option ε × σ :=
  match u.userRepo.GetUserIDByUUID userUUID s with
  | ((_, some err), s1) => (some err, s1)
  | ((userID, none), s1) => u.userRepo.UpdateOTPStatus userID otp requestID s1

end Service

/-- Errors seen by the service of the running server: those of the repository, or the
generator's error (with its message). -/
abbrev ServiceError := Error ⊕ String

/-- The repository as `makeRepository` builds it: the operations of `repository.User` on
the database, with the given failing steps and clock. The second component of the state
belongs to the generator and is not touched. -/
def repositoryUser (γ : Type) (lookupFault : Option String) (fl : Faults)
    (nowFunc : Nat → Time) : Service.UserRepository (Database × γ) ServiceError :=
  { GetUserIDByUUID := fun uuid s =>
      (((GetUserIDByUUID lookupFault s.1 uuid).1,
        (GetUserIDByUUID lookupFault s.1 uuid).2.map Sum.inl), s)
    StoreOTP := fun userID otp requestID s =>
      ((StoreOTP fl nowFunc s.1.otps userID otp requestID).1.map Sum.inl,
        ({ s.1 with otps := (StoreOTP fl nowFunc s.1.otps userID otp requestID).2 }, s.2))
    UpdateOTPStatus := fun userID otp requestID s =>
      ((UpdateOTPStatus fl nowFunc s.1.otps userID otp requestID).1.map Sum.inl,
        ({ s.1 with otps := (UpdateOTPStatus fl nowFunc s.1.otps userID otp requestID).2 },
          s.2)) }

/-- The service as `makeService` builds it: the repository above and a generator that
works on its own state `γ` (its source of random bytes) and has no access to the
database. -/
def serviceUser (γ : Type) (lookupFault : Option String) (fl : Faults)
    (nowFunc : Nat → Time) (gen : Nat → γ → (String × Option String) × γ) :
    Service.User (Database × γ) ServiceError :=
  { userRepo := repositoryUser γ lookupFault fl nowFunc
    otpGenerator := fun length s =>
      (((gen length s.2).1.1, (gen length s.2).1.2.map Sum.inr), (s.1, (gen length s.2).2)) }

/-- A generator in the style of the service tests: it always returns `out`; its state
counts how often it was called. -/
def fakeGenerator (out : String × Option String) : Nat → Nat → (String × Option String) × Nat :=
  fun _ calls => (out, calls + 1)

/-- Sample database: the sample ledger and its two users. -/
def sampleDatabase : Database :=
  { users := [{ id := 1, uuid := "uuid-1" }, { id := 2, uuid := "uuid-2" }],
    otps := sampleLedger }

/-! ## REST handlers (`internal/delivery/rest`) -/

namespace Rest

/-- Constant `http.StatusOK`. -/
def StatusOK : Nat := 200
/-- Constant `http.StatusBadRequest`. -/
def StatusBadRequest : Nat := 400
/-- Constant `http.StatusInternalServerError`. -/
def StatusInternalServerError : Nat := 500

/-- Struct `OTPRequest`. -/
structure OTPRequest where
  UserID : String
  deriving DecidableEq, Repr

/-- Struct `OTPResponse`. -/
structure OTPResponse where
  UserID : String
  OTP : String
  deriving DecidableEq, Repr

/-- Struct `ValidateOTPRequest`. -/
structure ValidateOTPRequest where
  UserID : String
  OTP : String
  ReqID : String
  deriving DecidableEq, Repr

/-- Struct `ValidateOTPResponse`. -/
structure ValidateOTPResponse where
  UserID : String
  Message : String
  deriving DecidableEq, Repr

/-- Interface `UserService`, over a state `σ` and errors `ε`. -/
structure UserService (σ ε : Type) where
  GenerateOTP : String → String → σ → (String × Option ε) × σ
  ValidateOTP : String → String → String → σ → Option ε × σ

/-- What a handler answers: the `*echo.HTTPError` it returns, or the JSON body it writes
with `c.JSON` (writing the response is taken to succeed). -/
inductive Reply (α : Type) where
  | HTTPError (code : Nat) (message : String)
  | JSON (code : Nat) (body : α)
  deriving DecidableEq, Repr

/-- HTTP status of a reply. -/
def Reply.code {α : Type} : Reply α → Nat
  | Reply.HTTPError code _ => code
  | Reply.JSON code _ => code

/-- Client-error class, 4xx. -/
def isClientError (code : Nat) : Prop := 400 ≤ code ∧ code < 500

/-- Server-error class, 5xx. -/
def isServerError (code : Nat) : Prop := 500 ≤ code ∧ code < 600

instance (code : Nat) : Decidable (isClientError code) := by
  unfold isClientError; infer_instance

instance (code : Nat) : Decidable (isServerError code) := by
  unfold isServerError; infer_instance

/-- `User.RequestOTP`. `bind` is the outcome of `c.Bind(&otpReq)` (`none` when it returns
an error) and `xRequestID` the value of the response header `X-Request-Id`. -/
def RequestOTP {σ ε : Type} (userSvc : UserService σ ε) (bind : Option OTPRequest)
    (xRequestID : String) (s : σ) : Reply OTPResponse × σ :=
  match bind with
  | none => (Reply.HTTPError StatusBadRequest "Bad Request", s)
  | some otpReq =>
    match userSvc.GenerateOTP otpReq.UserID xRequestID s with
    | ((_, some _), s1) =>
      (Reply.HTTPError StatusInternalServerError "Internal Server Error", s1)
    | ((otp, none), s1) =>
      (Reply.JSON StatusOK { UserID := otpReq.UserID, OTP := otp }, s1)

/-- `User.ValidateOTP`. `bind` is the outcome of `c.Bind(&validateOTPReq)`. -/
def ValidateOTP {σ ε : Type} (userSvc : UserService σ ε) (bind : Option ValidateOTPRequest)
    (s : σ) : Reply ValidateOTPResponse × σ :=
  match bind with
  | none => (Reply.HTTPError StatusBadRequest "Bad Request", s)
  | some validateOTPReq =>
    match userSvc.ValidateOTP validateOTPReq.UserID validateOTPReq.OTP
        validateOTPReq.ReqID s with
    | (some _, s1) =>
      (Reply.HTTPError StatusInternalServerError "Internal Server Error", s1)
    | (none, s1) =>
      (Reply.JSON StatusOK
        { UserID := validateOTPReq.UserID, Message := "OTP validated successfully." }, s1)

end Rest

/-- The handler's service as `makeHandler` wires it: the methods of `service.User`. -/
def userService {σ ε : Type} (u : Service.User σ ε) : Rest.UserService σ ε :=
  { GenerateOTP := Service.GenerateOTP u
    ValidateOTP := Service.ValidateOTP u }

/-- The server on the sample database with a generator that always returns "xxxxx". -/
def sampleService (nowFunc : Nat → Time) : Rest.UserService (Database × Nat) ServiceError :=
  userService (serviceUser Nat none noFaults nowFunc (fakeGenerator ("xxxxx", none)))

/-! ## Random digits (`internal/pkg/stringutil/number.go`) -/

/-- Constant `randomNumberCharset`. -/
def randomNumberCharset : String := "0123456789"

/-- Constant `randomNumberCharsetLen`. -/
def randomNumberCharsetLen : Nat := 10

/-- Constant `randomNumberMaxByte = 255 - (256 % randomNumberCharsetLen)`. -/
def randomNumberMaxByte : Nat := 255 - (256 % randomNumberCharsetLen)

/-- `io.ReadFull(reader, r)` for a buffer of `n` bytes, on a reader that yields the bytes of
`stream` and fails after them: the bytes read and the rest of the stream, or the error. -/
def readFull (stream : List Nat) (n : Nat) : Except String (List Nat × List Nat) :=
  if n ≤ stream.length then Except.ok (stream.take n, stream.drop n)
  else if stream = [] then Except.error "EOF"
  else Except.error "unexpected EOF"

/-- The loop `for _, rb := range r` of `RandomNumbers` on the bytes still to visit, with the
buffer `b` and the 8-bit counter `i`: either the string returned from inside the loop, or
`b` and `i` at the end of the loop. -/
def randomNumbersRange (length : Nat) : List Nat → List Char → Nat → (List Char × Nat) ⊕ String
  | [], b, i => Sum.inl (b, i)
  | rb :: rest, b, i =>
    if randomNumberMaxByte < rb then randomNumbersRange length rest b i
    else
      if (i + 1) % 256 = length then
        Sum.inr (String.mk
          (b.set i (randomNumberCharset.data.getD (rb % randomNumberCharsetLen) (Char.ofNat 0))))
      else
        randomNumbersRange length rest
          (b.set i (randomNumberCharset.data.getD (rb % randomNumberCharsetLen) (Char.ofNat 0)))
          ((i + 1) % 256)

/-- The outer `for` of `RandomNumbers`, with a scratch buffer of `size` bytes: `none` when
the loop is still running after `fuel` rounds, otherwise the returned `(string, error)`. -/
def randomNumbersLoop (length size : Nat) :
    Nat → List Nat → List Char → Nat → Option (String × Option String)
  | 0, _, _, _ => none
  | fuel + 1, stream, b, i =>
    match readFull stream size with
    | Except.error err => some ("", some err)
    | Except.ok (r, rest) =>
      match randomNumbersRange length r b i with
      | Sum.inr s => some (s, none)
      | Sum.inl (b2, i2) => randomNumbersLoop length size fuel rest b2 i2

/-- `RandomNumbers(length)` reading from `stream`, run for at most `fuel` rounds of the
outer loop. `length` is a `uint8`, and so is the size `length+(length/4)` of the scratch
buffer, which wraps modulo 256. -/
def RandomNumbers (fuel length : Nat) (stream : List Nat) : Option (String × Option String) :=
  randomNumbersLoop length ((length + length / 4) % 256) fuel stream
    (List.replicate length (Char.ofNat 0)) 0

/-- The bytes of a stream that `RandomNumbers` does not skip. -/
def acceptedBytes (stream : List Nat) : List Nat :=
  stream.filter (fun rb => decide (rb ≤ 249))

/-- The decimal digit `d` as a character. -/
def digitChar (d : Nat) : Char := Char.ofNat (48 + d)

/-- The byte values `RandomNumbers` accepts and turns into the digit `d`. -/
def digitPreimages (d : Nat) : List Nat :=
  (List.range 256).filter (fun rb => decide (rb ≤ randomNumberMaxByte) && rb % 10 == d)

/-! ## Configuration (`internal/pkg/config/config.go`) -/

namespace Config

/-- Constant `HTTPPort`. -/
def HTTPPort : String := "http.port"
/-- Constant `DBAddress`. -/
def DBAddress : String := "db.address"
/-- Constant `DBName`. -/
def DBName : String := "db.name"
/-- Constant `DBUsername`. -/
def DBUsername : String := "db.username"
/-- Constant `DBPassword`. -/
def DBPassword : String := "db.password"

/-- Variable `configKeys`. -/
def configKeys : List String := [HTTPPort, DBAddress, DBName, DBUsername, DBPassword]

/-- The loop of `validate` over the keys still to check; `getString` is `viper.GetString`.
The result is the error's message, `none` for `nil`. -/
def validateKeys (getString : String → String) : List String → Option String
  | [] => none
  | configKey :: rest =>
    if getString configKey = "" then some ("empty value for config key: " ++ configKey)
    else validateKeys getString rest

/-- Function `validate`. -/
def validate (getString : String → String) : Option String :=
  validateKeys getString configKeys

/-- Function `Load`. `readInConfig` is the error returned by `viper.ReadInConfig()` (`none`
for `nil`) and `getString` is `viper.GetString` after that call. -/
def Load (readInConfig : Option String) (getString : String → String) : Option String :=
  match readInConfig with
  | none => none
  | some _ =>
    match validate getString with
    | some err => some err
    | none => none

/-- Sample configuration in which `db.name` is empty and the other keys are set. -/
def sampleConfig (key : String) : String :=
  if key = DBName then "" else "value"

end Config

/-! ## Auxiliary lemmas -/

theorem countP_le_one_unique {α : Type} (p : α → Bool) :
    ∀ (l : List α), l.countP p ≤ 1 → ∀ a ∈ l, ∀ b ∈ l, p a = true → p b = true → a = b := by
  intro l
  induction l with
  | nil => intro _ a ha; simp at ha
  | cons x xs ih =>
    intro h a ha b hb pa pb
    rw [List.countP_cons] at h
    rcases List.mem_cons.1 ha with hax | ha2 <;> rcases List.mem_cons.1 hb with hbx | hb2
    · rw [hax, hbx]
    · have hpos : 0 < xs.countP p := List.countP_pos_iff.2 ⟨b, hb2, pb⟩
      rw [hax] at pa
      rw [if_pos pa] at h
      omega
    · have hpos : 0 < xs.countP p := List.countP_pos_iff.2 ⟨a, ha2, pa⟩
      rw [hbx] at pb
      rw [if_pos pb] at h
      omega
    · exact ih (by omega) a ha2 b hb2 pa pb

theorem unusedCount_updateStatus_le (db : Ledger) (s i u : Nat) (hs : s ≠ otpStatusUnused) :
    unusedCount (updateStatus db s i) u ≤ unusedCount db u := by
  unfold unusedCount updateStatus
  rw [List.countP_map]
  apply List.countP_mono_left
  intro r _ hr
  by_cases h : r.id = i
  · simp [h, hs] at hr
  · simpa [h] using hr

theorem find?_unused_of_single {db : Ledger} {u : Nat} (hsu : SingleUnused db) {r : OTP}
    (hr : r ∈ db) (hu : r.user_id = u) (hst : r.status = otpStatusUnused) :
    db.find? (fun x => x.user_id == u && x.status == otpStatusUnused) = some r := by
  cases hf : db.find? (fun x => x.user_id == u && x.status == otpStatusUnused) with
  | none =>
    have := List.find?_eq_none.1 hf r hr
    simp [hu, hst] at this
  | some x =>
    have hx : x ∈ db := List.mem_of_find?_eq_some hf
    have hpx := List.find?_some hf
    have := countP_le_one_unique _ db (hsu u) x hx r hr hpx (by simp [hu, hst])
    rw [this]

theorem mem_updateStatus {db : Ledger} {s i : Nat} {y : OTP} (hy : y ∈ updateStatus db s i) :
    ∃ x ∈ db, y = (if x.id = i then { x with status := s } else x) := by
  unfold updateStatus at hy
  rcases List.mem_map.1 hy with ⟨x, hx, rfl⟩
  exact ⟨x, hx, rfl⟩

/-! ### The SQL statements -/

theorem updateStatus_ids (db : Ledger) (s i : Nat) :
    (updateStatus db s i).map (fun r => r.id) = db.map (fun r => r.id) := by
  unfold updateStatus
  rw [List.map_map]
  apply List.map_congr_left
  intro r _
  by_cases h : r.id = i <;> simp [h]

theorem updateStatus_of_forall_ne {db : Ledger} {s i : Nat} (h : ∀ r ∈ db, r.id ≠ i) :
    updateStatus db s i = db := by
  unfold updateStatus
  conv_rhs => rw [← List.map_id db]
  apply List.map_congr_left
  intro r hr
  simp [h r hr]

theorem eq_of_id_eq {db : Ledger} (hnd : (db.map (fun r => r.id)).Nodup) {x y : OTP}
    (hx : x ∈ db) (hy : y ∈ db) (h : x.id = y.id) : x = y :=
  List.inj_on_of_nodup_map hnd hx hy h

theorem updateStatus_of_nodup {db : Ledger} (hnd : (db.map (fun r => r.id)).Nodup) {r : OTP}
    (hr : r ∈ db) (s : Nat) :
    updateStatus db s r.id = db.map (fun x => if x = r then { x with status := s } else x) := by
  unfold updateStatus
  apply List.map_congr_left
  intro x hx
  by_cases h : x = r
  · simp [h]
  · have : x.id ≠ r.id := fun hid => h (eq_of_id_eq hnd hx hr hid)
    simp [h, this]

theorem id_lt_nextID {db : Ledger} {r : OTP} (hr : r ∈ db) : r.id < nextID db := by
  unfold nextID
  induction db with
  | nil => simp at hr
  | cons x xs ih =>
    simp only [List.map_cons, List.foldr_cons]
    rcases List.mem_cons.1 hr with h | h
    · rw [h]; omega
    · have := ih h; omega

theorem wellFormed_updateStatus {db : Ledger} (h : WellFormed db) (s i : Nat) :
    WellFormed (updateStatus db s i) := by
  refine ⟨?_, ?_⟩
  · intro y hy
    rcases mem_updateStatus hy with ⟨x, hx, rfl⟩
    have := h.1 x hx
    by_cases hi : x.id = i <;> simp [hi] <;> omega
  · rw [updateStatus_ids]; exact h.2

theorem wellFormed_insertOTP {db : Ledger} (h : WellFormed db) (u : Nat) (c q : String)
    (t : Time) : WellFormed (insertOTP db u c q t) := by
  unfold insertOTP
  refine ⟨?_, ?_⟩
  · intro y hy
    rcases List.mem_append.1 hy with hy | hy
    · exact h.1 y hy
    · simp at hy; rw [hy]; simp [nextID]
  · rw [List.map_append, List.nodup_append]
    refine ⟨h.2, by simp, ?_⟩
    intro a ha hb
    simp at hb
    rcases List.mem_map.1 ha with ⟨x, hx, rfl⟩
    have := id_lt_nextID hx
    omega

/-! ### The two operations, path by path -/

theorem StoreOTP_cases (fl : Faults) (nowFunc : Nat → Time) (db : Ledger) (userID : Nat)
    (otp requestID : String) :
    ((StoreOTP fl nowFunc db userID otp requestID).1 ≠ none ∧
        (StoreOTP fl nowFunc db userID otp requestID).2 = db) ∨
      ((StoreOTP fl nowFunc db userID otp requestID).1 = none ∧
        ¬ storeRejects nowFunc db userID ∧
        (StoreOTP fl nowFunc db userID otp requestID).2 =
          insertOTP (updateStatus db otpStatusExpired (scannedID db userID))
            userID otp requestID
            (nowFunc (if 0 < scannedID db userID then 1 else 0) + 5 * Minute)) := by
  rcases fl with ⟨b, q, up, ins, cm⟩
  cases b <;> cases q <;> cases up <;> cases ins <;> cases cm <;>
    simp only [StoreOTP, scannedID, scannedRow, storeRejects] <;> (try split_ifs) <;> simp_all

theorem UpdateOTPStatus_cases (fl : Faults) (nowFunc : Nat → Time) (db : Ledger) (userID : Nat)
    (otp requestID : String) :
    ((UpdateOTPStatus fl nowFunc db userID otp requestID).1 ≠ none ∧
        (UpdateOTPStatus fl nowFunc db userID otp requestID).2 = db) ∨
      ((UpdateOTPStatus fl nowFunc db userID otp requestID).1 = none ∧
        ∃ r, db.find? (fun x => x.user_id == userID && x.otp == otp &&
            x.status == otpStatusUnused) = some r ∧ ¬ r.expired_at < nowFunc 0 ∧
          (UpdateOTPStatus fl nowFunc db userID otp requestID).2 =
            updateStatus db otpStatusUsed r.id) := by
  rcases fl with ⟨b, q, up, ins, cm⟩
  unfold UpdateOTPStatus selectByUserOTPStatus
  cases hf : db.find? (fun x => x.user_id == userID && x.otp == otp &&
      x.status == otpStatusUnused) with
  | none => cases b <;> cases q <;> simp
  | some r =>
    cases b <;> cases q <;> cases up <;> cases cm <;> simp <;> (try split_ifs) <;> simp_all

theorem StoreOTP_none {db : Ledger} {userID : Nat}
    (hf : db.find? (fun x => x.user_id == userID && x.status == otpStatusUnused) = none)
    (nowFunc : Nat → Time) (otp requestID : String) :
    StoreOTP noFaults nowFunc db userID otp requestID =
      (none, insertOTP (updateStatus db otpStatusExpired 0) userID otp requestID
        (nowFunc 0 + 5 * Minute)) := by
  simp [StoreOTP, noFaults, selectByUserStatus, hf]

theorem StoreOTP_live {db : Ledger} {userID : Nat} {r : OTP}
    (hf : db.find? (fun x => x.user_id == userID && x.status == otpStatusUnused) = some r)
    {nowFunc : Nat → Time} (hid : 0 < r.id) (hlive : nowFunc 0 < r.expired_at)
    (otp requestID : String) :
    StoreOTP noFaults nowFunc db userID otp requestID = (some Error.ErrOTPExist, db) := by
  simp [StoreOTP, noFaults, selectByUserStatus, hf, hid, hlive]

theorem StoreOTP_stale {db : Ledger} {userID : Nat} {r : OTP}
    (hf : db.find? (fun x => x.user_id == userID && x.status == otpStatusUnused) = some r)
    {nowFunc : Nat → Time} (hstale : ¬ (0 < r.id ∧ nowFunc 0 < r.expired_at))
    (otp requestID : String) :
    StoreOTP noFaults nowFunc db userID otp requestID =
      (none, insertOTP (updateStatus db otpStatusExpired r.id) userID otp requestID
        (nowFunc (if 0 < r.id then 1 else 0) + 5 * Minute)) := by
  simp only [StoreOTP, noFaults, selectByUserStatus, hf, Option.map_some', Option.getD_some]
  rw [if_neg hstale]

theorem UpdateOTPStatus_none {db : Ledger} {userID : Nat} {otp : String}
    (hf : db.find? (fun x => x.user_id == userID && x.otp == otp &&
      x.status == otpStatusUnused) = none)
    (nowFunc : Nat → Time) (requestID : String) :
    UpdateOTPStatus noFaults nowFunc db userID otp requestID =
      (some Error.ErrInvalidOTP, db) := by
  simp [UpdateOTPStatus, noFaults, selectByUserOTPStatus, hf]

theorem UpdateOTPStatus_expired {db : Ledger} {userID : Nat} {otp : String} {r : OTP}
    (hf : db.find? (fun x => x.user_id == userID && x.otp == otp &&
      x.status == otpStatusUnused) = some r)
    {nowFunc : Nat → Time} (hexp : r.expired_at < nowFunc 0) (requestID : String) :
    UpdateOTPStatus noFaults nowFunc db userID otp requestID =
      (some Error.ErrOTPExpired, db) := by
  simp [UpdateOTPStatus, noFaults, selectByUserOTPStatus, hf, hexp]

theorem UpdateOTPStatus_valid {db : Ledger} {userID : Nat} {otp : String} {r : OTP}
    (hf : db.find? (fun x => x.user_id == userID && x.otp == otp &&
      x.status == otpStatusUnused) = some r)
    {nowFunc : Nat → Time} (hok : ¬ r.expired_at < nowFunc 0) (requestID : String) :
    UpdateOTPStatus noFaults nowFunc db userID otp requestID =
      (none, updateStatus db otpStatusUsed r.id) := by
  simp [UpdateOTPStatus, noFaults, selectByUserOTPStatus, hf, hok]

/-! ### Invariants of the ledger -/

theorem scannedID_of_mem {db : Ledger} {u : Nat} (hsu : SingleUnused db) {r : OTP}
    (hr : r ∈ db) (hu : r.user_id = u) (hst : r.status = otpStatusUnused) :
    scannedID db u = r.id := by
  simp [scannedID, scannedRow, selectByUserStatus, find?_unused_of_single hsu hr hu hst]

theorem unusedCount_after_expire {db : Ledger} (hsu : SingleUnused db) (u : Nat) :
    unusedCount (updateStatus db otpStatusExpired (scannedID db u)) u = 0 := by
  unfold unusedCount
  rw [List.countP_eq_zero]
  intro y hy
  rcases mem_updateStatus hy with ⟨x, hx, rfl⟩
  by_cases hi : x.id = scannedID db u
  · simp [hi]
  · rw [if_neg hi]
    intro hp
    simp only [Bool.and_eq_true, beq_iff_eq] at hp
    exact hi (scannedID_of_mem hsu hx hp.1 hp.2).symm

theorem unusedCount_insertOTP (db : Ledger) (u : Nat) (c q : String) (t : Time) (v : Nat) :
    unusedCount (insertOTP db u c q t) v = unusedCount db v + (if u = v then 1 else 0) := by
  unfold unusedCount insertOTP
  rw [List.countP_append]
  by_cases h : u = v <;> simp [List.countP_cons, h]

theorem singleUnused_StoreOTP {db : Ledger} (hsu : SingleUnused db) (fl : Faults)
    (nowFunc : Nat → Time) (userID : Nat) (otp requestID : String) :
    SingleUnused (StoreOTP fl nowFunc db userID otp requestID).2 := by
  rcases StoreOTP_cases fl nowFunc db userID otp requestID with ⟨_, h⟩ | ⟨_, _, h⟩
  · rw [h]; exact hsu
  · rw [h]
    intro v
    rw [unusedCount_insertOTP]
    by_cases huv : userID = v
    · rw [if_pos huv, ← huv, unusedCount_after_expire hsu]
    · rw [if_neg huv]
      have h1 := unusedCount_updateStatus_le db otpStatusExpired (scannedID db userID) v
        (by decide)
      have h2 := hsu v
      omega

theorem singleUnused_UpdateOTPStatus {db : Ledger} (hsu : SingleUnused db) (fl : Faults)
    (nowFunc : Nat → Time) (userID : Nat) (otp requestID : String) :
    SingleUnused (UpdateOTPStatus fl nowFunc db userID otp requestID).2 := by
  rcases UpdateOTPStatus_cases fl nowFunc db userID otp requestID with
    ⟨_, h⟩ | ⟨_, r, _, _, h⟩
  · rw [h]; exact hsu
  · rw [h]
    intro v
    have h1 := unusedCount_updateStatus_le db otpStatusUsed r.id v (by decide)
    have h2 := hsu v
    omega

theorem wellFormed_StoreOTP {db : Ledger} (hwf : WellFormed db) (fl : Faults)
    (nowFunc : Nat → Time) (userID : Nat) (otp requestID : String) :
    WellFormed (StoreOTP fl nowFunc db userID otp requestID).2 := by
  rcases StoreOTP_cases fl nowFunc db userID otp requestID with ⟨_, h⟩ | ⟨_, _, h⟩
  · rw [h]; exact hwf
  · rw [h]; exact wellFormed_insertOTP (wellFormed_updateStatus hwf _ _) _ _ _ _

theorem wellFormed_UpdateOTPStatus {db : Ledger} (hwf : WellFormed db) (fl : Faults)
    (nowFunc : Nat → Time) (userID : Nat) (otp requestID : String) :
    WellFormed (UpdateOTPStatus fl nowFunc db userID otp requestID).2 := by
  rcases UpdateOTPStatus_cases fl nowFunc db userID otp requestID with
    ⟨_, h⟩ | ⟨_, r, _, _, h⟩
  · rw [h]; exact hwf
  · rw [h]; exact wellFormed_updateStatus hwf _ _

theorem singleUnused_nil : SingleUnused [] := by
  intro u; simp [unusedCount]

theorem wellFormed_nil : WellFormed [] := by
  simp [WellFormed]

/-- Every ledger the two operations can produce from the empty one satisfies the key
constraint and holds at most one Unused row per user. -/
theorem reachable_invariants {db : Ledger} (h : Reachable db) :
    WellFormed db ∧ SingleUnused db := by
  induction h with
  | empty => exact ⟨wellFormed_nil, singleUnused_nil⟩
  | step _ hs ih =>
    cases hs with
    | store fl nowFunc _ userID otp requestID =>
      exact ⟨wellFormed_StoreOTP ih.1 _ _ _ _ _, singleUnused_StoreOTP ih.2 _ _ _ _ _⟩
    | update fl nowFunc _ userID otp requestID =>
      exact ⟨wellFormed_UpdateOTPStatus ih.1 _ _ _ _ _,
        singleUnused_UpdateOTPStatus ih.2 _ _ _ _ _⟩

/-! ### Further facts used by the main results -/

theorem singleUnused_of_check {db : Ledger} (h : singleUnusedCheck db = true) :
    SingleUnused db := by
  intro u
  by_cases hex : ∃ r ∈ db, r.user_id = u
  · rcases hex with ⟨r, hr, rfl⟩
    have := List.all_eq_true.1 h r hr
    simpa using this
  · have h0 : unusedCount db u = 0 := by
      unfold unusedCount
      rw [List.countP_eq_zero]
      intro r hr hp
      simp only [Bool.and_eq_true, beq_iff_eq] at hp
      exact hex ⟨r, hr, hp.1⟩
    omega

theorem find?_otp_of_single {db : Ledger} {u : Nat} {c : String} (hsu : SingleUnused db)
    {r : OTP} (hr : r ∈ db) (hu : r.user_id = u) (hc : r.otp = c)
    (hst : r.status = otpStatusUnused) :
    db.find? (fun x => x.user_id == u && x.otp == c && x.status == otpStatusUnused) =
      some r := by
  cases hf : db.find? (fun x => x.user_id == u && x.otp == c &&
      x.status == otpStatusUnused) with
  | none =>
    have := List.find?_eq_none.1 hf r hr
    simp [hu, hc, hst] at this
  | some x =>
    have hx : x ∈ db := List.mem_of_find?_eq_some hf
    have hpx := List.find?_some hf
    simp only [Bool.and_eq_true, beq_iff_eq] at hpx
    have := countP_le_one_unique _ db (hsu u) x hx r hr (by simp [hpx.1.1, hpx.2])
      (by simp [hu, hst])
    rw [this]

theorem find?_otp_none_of_forall {db : Ledger} {u : Nat} {c : String}
    (h : ∀ r ∈ db, ¬ (r.user_id = u ∧ r.otp = c ∧ r.status = otpStatusUnused)) :
    db.find? (fun x => x.user_id == u && x.otp == c && x.status == otpStatusUnused) =
      none := by
  rw [List.find?_eq_none]
  intro r hr hp
  simp only [Bool.and_eq_true, beq_iff_eq] at hp
  exact h r hr ⟨hp.1.1, hp.1.2, hp.2⟩

theorem find?_unused_none_of_forall {db : Ledger} {u : Nat}
    (h : ∀ r ∈ db, r.user_id = u → r.status ≠ otpStatusUnused) :
    db.find? (fun x => x.user_id == u && x.status == otpStatusUnused) = none := by
  rw [List.find?_eq_none]
  intro r hr hp
  simp only [Bool.and_eq_true, beq_iff_eq] at hp
  exact h r hr hp.1 hp.2

theorem updateStatus_eq_markStatus {db : Ledger} (hwf : WellFormed db) {r : OTP}
    (hr : r ∈ db) (s : Nat) : updateStatus db s r.id = markStatus db r s := by
  rw [updateStatus_of_nodup hwf.2 hr]
  rfl

theorem updateStatus_zero {db : Ledger} (hwf : WellFormed db) (s : Nat) :
    updateStatus db s 0 = db := by
  apply updateStatus_of_forall_ne
  intro r hr
  have := hwf.1 r hr
  omega

theorem nextID_updateStatus (db : Ledger) (s i : Nat) :
    nextID (updateStatus db s i) = nextID db := by
  unfold nextID
  rw [updateStatus_ids]

theorem insertOTP_eq (db : Ledger) (u : Nat) (c q : String) (t : Time) :
    insertOTP db u c q t = db ++ [newOTP (nextID db) u c q t] := rfl

theorem nextID_markStatus {db : Ledger} (hwf : WellFormed db) {r : OTP} (hr : r ∈ db)
    (s : Nat) : nextID (markStatus db r s) = nextID db := by
  rw [← updateStatus_eq_markStatus hwf hr, nextID_updateStatus]

/-- Fault-free consume of the matching, unexpired Unused record. -/
theorem UpdateOTPStatus_consume {db : Ledger} (hwf : WellFormed db) (hsu : SingleUnused db)
    {userID : Nat} {otp : String} {r : OTP} (hr : r ∈ db) (hu : r.user_id = userID)
    (hc : r.otp = otp) (hst : r.status = otpStatusUnused) {nowFunc : Nat → Time}
    (hok : nowFunc 0 ≤ r.expired_at) (requestID : String) :
    UpdateOTPStatus noFaults nowFunc db userID otp requestID =
      (none, markStatus db r otpStatusUsed) := by
  rw [UpdateOTPStatus_valid (find?_otp_of_single hsu hr hu hc hst) (not_lt.2 hok),
    updateStatus_eq_markStatus hwf hr]

/-- No Unused row of `r`'s user is left once `r`, the Unused one, changes status. -/
theorem no_unused_after_mark {db : Ledger} (hsu : SingleUnused db) {r : OTP} (hr : r ∈ db)
    (hst : r.status = otpStatusUnused) {s : Nat} (hs : s ≠ otpStatusUnused) :
    ∀ y ∈ markStatus db r s, y.user_id = r.user_id → y.status ≠ otpStatusUnused := by
  intro y hy hyu hys
  unfold markStatus at hy
  rcases List.mem_map.1 hy with ⟨x, hx, rfl⟩
  by_cases hxr : x = r
  · rw [if_pos hxr] at hys
    exact hs hys
  · rw [if_neg hxr] at hys hyu
    exact hxr (countP_le_one_unique _ db (hsu r.user_id) x hx r hr (by simp [hyu, hys])
      (by simp [hst]))

/-- Fault-free issue when the user's Unused record is no longer live. -/
theorem StoreOTP_lazy_expiry {db : Ledger} (hwf : WellFormed db) (hsu : SingleUnused db)
    {userID : Nat} {r : OTP} (hr : r ∈ db) (hu : r.user_id = userID)
    (hst : r.status = otpStatusUnused) {now : Time} (hstale : r.expired_at ≤ now)
    (otp requestID : String) :
    StoreOTP noFaults (fun _ => now) db userID otp requestID =
      (none, markStatus db r otpStatusExpired ++
        [newOTP (nextID db) userID otp requestID (now + 5 * Minute)]) := by
  have hs : ¬ (0 < r.id ∧ (fun _ : Nat => now) 0 < r.expired_at) :=
    fun h => absurd h.2 (not_lt.2 hstale)
  rw [StoreOTP_stale (find?_unused_of_single hsu hr hu hst) hs,
    insertOTP_eq, nextID_updateStatus, updateStatus_eq_markStatus hwf hr]

/-- Fault-free issue when the user has no Unused record. -/
theorem StoreOTP_first {db : Ledger} (hwf : WellFormed db) {userID : Nat}
    (hno : ∀ r ∈ db, r.user_id = userID → r.status ≠ otpStatusUnused)
    (nowFunc : Nat → Time) (otp requestID : String) :
    StoreOTP noFaults nowFunc db userID otp requestID =
      (none, db ++ [newOTP (nextID db) userID otp requestID (nowFunc 0 + 5 * Minute)]) := by
  rw [StoreOTP_none (find?_unused_none_of_forall hno), insertOTP_eq, updateStatus_zero hwf]

/-! ## Main results -/

/-- C1 (single active OTP). If every user has at most one Unused record in the ledger, then
after any call of `StoreOTP` or `UpdateOTPStatus` (any arguments, any clock, any failing
database step, hence any outcome) every user again has at most one Unused record in the
committed ledger; hence every ledger reachable from the empty ledger has the property. -/
theorem single_active_otp_preserved (db : Ledger) (h : SingleUnused db) :
    (∀ (fl : Faults) (nowFunc : Nat → Time) (userID : Nat) (otp requestID : String),
      SingleUnused (StoreOTP fl nowFunc db userID otp requestID).2) ∧
    (∀ (fl : Faults) (nowFunc : Nat → Time) (userID : Nat) (otp requestID : String),
      SingleUnused (UpdateOTPStatus fl nowFunc db userID otp requestID).2) ∧
    (∀ db2 : Ledger, Reachable db2 → SingleUnused db2) :=
  ⟨fun fl nowFunc userID otp requestID =>
      singleUnused_StoreOTP h fl nowFunc userID otp requestID,
    fun fl nowFunc userID otp requestID =>
      singleUnused_UpdateOTPStatus h fl nowFunc userID otp requestID,
    fun _ hreach => (reachable_invariants hreach).2⟩

/-- The sample ledger has one Unused record per user, and so has the ledger after an issue at
minute 3 or a consume at minute 1. -/
theorem single_active_otp_preserved_witness :
    SingleUnused sampleLedger ∧
    SingleUnused (StoreOTP noFaults (fun _ => 3 * Minute) sampleLedger 1 "67890" "req-3").2 ∧
    SingleUnused
      (UpdateOTPStatus noFaults (fun _ => Minute) sampleLedger 1 "12345" "req-3").2 :=
  ⟨singleUnused_of_check (by decide),
    (single_active_otp_preserved sampleLedger (singleUnused_of_check (by decide))).1
      noFaults (fun _ => 3 * Minute) 1 "67890" "req-3",
    (single_active_otp_preserved sampleLedger (singleUnused_of_check (by decide))).2.1
      noFaults (fun _ => Minute) 1 "12345" "req-3"⟩

/-- C2 (exactly-once consumption). On a ledger with the key constraint and at most one Unused
record per user, if `userID` has an Unused record `r` with code `otp` and
`expired_at >= now`, then with a working database `UpdateOTPStatus userID otp` returns `nil`
and the committed ledger is the old one with exactly `r` changed to Used; a second
`UpdateOTPStatus userID otp` on that ledger, at any clock value, returns `ErrInvalidOTP`
and leaves the ledger as it is. -/
theorem consume_exactly_once (db : Ledger) (hwf : WellFormed db) (hsu : SingleUnused db)
    (userID : Nat) (otp : String) (r : OTP) (hr : r ∈ db) (hu : r.user_id = userID)
    (hc : r.otp = otp) (hst : r.status = otpStatusUnused) (nowFunc : Nat → Time)
    (hok : nowFunc 0 ≤ r.expired_at) (requestID : String) :
    UpdateOTPStatus noFaults nowFunc db userID otp requestID =
        (none, markStatus db r otpStatusUsed) ∧
    ∀ (later : Nat → Time) (requestID2 : String),
      UpdateOTPStatus noFaults later
          (UpdateOTPStatus noFaults nowFunc db userID otp requestID).2 userID otp requestID2 =
        (some Error.ErrInvalidOTP, markStatus db r otpStatusUsed) := by
  have h1 := UpdateOTPStatus_consume hwf hsu hr hu hc hst hok requestID
  refine ⟨h1, ?_⟩
  intro later requestID2
  rw [h1]
  apply UpdateOTPStatus_none
  apply find?_otp_none_of_forall
  intro y hy hcon
  exact no_unused_after_mark hsu hr hst (by decide) y hy (hcon.1.trans hu.symm) hcon.2.2

/-- The repository test `SuccessUpdatingOTPStatus`, followed by a second consume: the sample
code is consumed at minute 1, and consuming it again at minute 1 is rejected. -/
theorem consume_exactly_once_witness :
    UpdateOTPStatus noFaults (fun _ => Minute) sampleLedger 1 "12345" "req-3" =
        (none, [withStatus sampleOTP otpStatusUsed, sampleUsed]) ∧
    UpdateOTPStatus noFaults (fun _ => Minute)
          (UpdateOTPStatus noFaults (fun _ => Minute) sampleLedger 1 "12345" "req-3").2
          1 "12345" "req-4" =
        (some Error.ErrInvalidOTP, [withStatus sampleOTP otpStatusUsed, sampleUsed]) :=
  have h := consume_exactly_once sampleLedger (by decide) (singleUnused_of_check (by decide))
    1 "12345" sampleOTP (by decide) rfl rfl rfl (fun _ => Minute) (by decide) "req-3"
  ⟨h.1, h.2 (fun _ => Minute) "req-4"⟩

/-- C3 (issue rejected while live). On a ledger with the key constraint and at most one
Unused record per user, if `userID` has an Unused record `r` with `expired_at > now`, then
with a working database `StoreOTP` returns `ErrOTPExist` and the committed ledger is the
ledger before the call: `r` is still in it, unchanged, and no record was inserted. -/
theorem issue_rejected_while_live (db : Ledger) (hwf : WellFormed db) (hsu : SingleUnused db)
    (userID : Nat) (r : OTP) (hr : r ∈ db) (hu : r.user_id = userID)
    (hst : r.status = otpStatusUnused) (nowFunc : Nat → Time)
    (hlive : nowFunc 0 < r.expired_at) (otp requestID : String) :
    StoreOTP noFaults nowFunc db userID otp requestID = (some Error.ErrOTPExist, db) ∧
    r ∈ (StoreOTP noFaults nowFunc db userID otp requestID).2 ∧
    (StoreOTP noFaults nowFunc db userID otp requestID).2.length = db.length := by
  have h := StoreOTP_live (find?_unused_of_single hsu hr hu hst) (hwf.1 r hr) hlive
    otp requestID
  rw [h]
  exact ⟨rfl, hr, rfl⟩

/-- The repository test `ErrorOTPAlreadyExist`: at minute 1 the sample code, which expires at
minute 2, blocks a new issue for user 1. -/
theorem issue_rejected_while_live_witness :
    StoreOTP noFaults (fun _ => Minute) sampleLedger 1 "xxxxx" "fake-request-id" =
      (some Error.ErrOTPExist, sampleLedger) :=
  (issue_rejected_while_live sampleLedger (by decide) (singleUnused_of_check (by decide))
    1 sampleOTP (by decide) rfl rfl (fun _ => Minute) (by decide) "xxxxx"
    "fake-request-id").1

/-- C4 (lazy expiry on issue). On a ledger with the key constraint and at most one Unused
record per user, if the Unused record `r` of `userID` has `expired_at <= now` and the clock
is fixed at `now`, then with a working database `StoreOTP` returns `nil` and the committed
ledger is the old one with exactly `r` changed to Expired, followed by one new record with
that user, code and request id, status Unused and `expired_at = now + 5 minutes`. So when an
issue at `t0` succeeds, an issue at `t0 + 6 minutes` leaves the first record Expired and
appends an Unused record expiring at `t0 + 11 minutes`. -/
theorem lazy_expiry_on_issue (db : Ledger) (hwf : WellFormed db) (hsu : SingleUnused db)
    (userID : Nat) (r : OTP) (hr : r ∈ db) (hu : r.user_id = userID)
    (hst : r.status = otpStatusUnused) (now : Time) (hstale : r.expired_at ≤ now)
    (otp requestID : String) :
    (StoreOTP noFaults (fun _ => now) db userID otp requestID =
        (none, markStatus db r otpStatusExpired ++
          [newOTP (nextID db) userID otp requestID (now + 5 * Minute)]) ∧
      withStatus r otpStatusExpired ∈
        (StoreOTP noFaults (fun _ => now) db userID otp requestID).2) ∧
    ∀ (db0 : Ledger) (t0 : Time) (otp1 requestID1 otp2 requestID2 : String),
      WellFormed db0 → SingleUnused db0 →
      (StoreOTP noFaults (fun _ => t0) db0 userID otp1 requestID1).1 = none →
      ∃ (db1 : Ledger) (first : OTP),
        (StoreOTP noFaults (fun _ => t0) db0 userID otp1 requestID1).2 = db1 ++ [first] ∧
        first = newOTP first.id userID otp1 requestID1 (t0 + 5 * Minute) ∧
        StoreOTP noFaults (fun _ => t0 + 6 * Minute) (db1 ++ [first]) userID otp2 requestID2 =
          (none, db1 ++ [withStatus first otpStatusExpired] ++
            [newOTP (nextID (db1 ++ [first])) userID otp2 requestID2
              (t0 + 11 * Minute)]) := by
  have h1 := StoreOTP_lazy_expiry hwf hsu hr hu hst hstale otp requestID
  refine ⟨⟨h1, ?_⟩, ?_⟩
  · rw [h1]
    apply List.mem_append_left
    unfold markStatus
    exact List.mem_map.2 ⟨r, hr, by simp⟩
  · intro db0 t0 otp1 requestID1 otp2 requestID2 hwf0 hsu0 hsucc
    have hwf1 := wellFormed_StoreOTP hwf0 noFaults (fun _ => t0) userID otp1 requestID1
    have hsu1 := singleUnused_StoreOTP hsu0 noFaults (fun _ => t0) userID otp1 requestID1
    rcases StoreOTP_cases noFaults (fun _ => t0) db0 userID otp1 requestID1 with
      ⟨hne, _⟩ | ⟨_, _, h2⟩
    · exact absurd hsucc hne
    · rw [insertOTP_eq] at h2
      rw [h2] at hwf1 hsu1
      generalize updateStatus db0 otpStatusExpired (scannedID db0 userID) = dbm at h2 hwf1 hsu1
      refine ⟨dbm, _, h2, rfl, ?_⟩
      generalize hfirst : newOTP (nextID dbm) userID otp1 requestID1 (t0 + 5 * Minute) = first
        at hwf1 hsu1
      have hmem : first ∈ dbm ++ [first] := by simp
      have hfu : first.user_id = userID := by rw [← hfirst]; rfl
      have hfs : first.status = otpStatusUnused := by rw [← hfirst]; rfl
      have hfe : first.expired_at = t0 + 5 * Minute := by rw [← hfirst]; rfl
      have hmin : (0 : Int) ≤ Minute := by decide
      have hle : first.expired_at ≤ t0 + 6 * Minute := by rw [hfe]; linarith
      rw [StoreOTP_lazy_expiry hwf1 hsu1 hmem hfu hfs hle otp2 requestID2]
      have hnot : ∀ x ∈ dbm, x ≠ first := by
        intro x hx hxe
        have := id_lt_nextID hx
        rw [hxe, ← hfirst] at this
        simp [newOTP] at this
      have hmark : markStatus (dbm ++ [first]) first otpStatusExpired =
          dbm ++ [withStatus first otpStatusExpired] := by
        unfold markStatus
        rw [List.map_append]
        congr 1
        · conv_rhs => rw [← List.map_id dbm]
          apply List.map_congr_left
          intro x hx
          simp [hnot x hx]
        · simp
      rw [hmark]
      have ht : t0 + 6 * Minute + 5 * Minute = t0 + 11 * Minute := by ring
      rw [ht]

/-- The repository test `SuccessStoringOTP` on the sample ledger: at minute 3 the sample
code, expired at minute 2, is marked Expired and a new code expiring at minute 8 is
appended. -/
theorem lazy_expiry_on_issue_witness :
    StoreOTP noFaults (fun _ => 3 * Minute) sampleLedger 1 "xxxxx" "fake-request-id" =
      (none, [withStatus sampleOTP otpStatusExpired, sampleUsed,
        newOTP 3 1 "xxxxx" "fake-request-id" (8 * Minute)]) :=
  (lazy_expiry_on_issue sampleLedger (by decide) (singleUnused_of_check (by decide))
    1 sampleOTP (by decide) rfl rfl (3 * Minute) (by decide) "xxxxx"
    "fake-request-id").1.1

/-- C5 (invalid code is collapsed and harmless). On every ledger, if no record has that
`userID`, that code and status Unused (the user has no record, the code is wrong, or the
matching record is Used or Expired), then with a working database `UpdateOTPStatus` returns
`ErrInvalidOTP`, the same error in each of these cases, and the committed ledger is the
ledger before the call. -/
theorem invalid_otp_collapsed (db : Ledger) (userID : Nat) (otp : String)
    (hno : ∀ r ∈ db, ¬ (r.user_id = userID ∧ r.otp = otp ∧ r.status = otpStatusUnused))
    (nowFunc : Nat → Time) (requestID : String) :
    UpdateOTPStatus noFaults nowFunc db userID otp requestID =
      (some Error.ErrInvalidOTP, db) :=
  UpdateOTPStatus_none (find?_otp_none_of_forall hno) nowFunc requestID

/-- On the sample ledger: a wrong code for user 1, the already used code of user 2, and a
user without any record all get `ErrInvalidOTP`, and the empty ledger gives the same. -/
theorem invalid_otp_collapsed_witness :
    UpdateOTPStatus noFaults (fun _ => Minute) sampleLedger 1 "00000" "req-3" =
        (some Error.ErrInvalidOTP, sampleLedger) ∧
    UpdateOTPStatus noFaults (fun _ => Minute) sampleLedger 2 "54321" "req-3" =
        (some Error.ErrInvalidOTP, sampleLedger) ∧
    UpdateOTPStatus noFaults (fun _ => Minute) sampleLedger 7 "12345" "req-3" =
        (some Error.ErrInvalidOTP, sampleLedger) ∧
    UpdateOTPStatus noFaults (fun _ => Minute) [] 1 "12345" "req-3" =
        (some Error.ErrInvalidOTP, []) :=
  ⟨invalid_otp_collapsed sampleLedger 1 "00000" (by decide) (fun _ => Minute) "req-3",
    invalid_otp_collapsed sampleLedger 2 "54321" (by decide) (fun _ => Minute) "req-3",
    invalid_otp_collapsed sampleLedger 7 "12345" (by decide) (fun _ => Minute) "req-3",
    invalid_otp_collapsed [] 1 "12345" (by decide) (fun _ => Minute) "req-3"⟩

/-- C6 (expired consume leaves the record untouched). On a ledger with at most one Unused
record per user, if `(userID, otp)` matches an Unused record `r` with `expired_at < now`,
then with a working database `UpdateOTPStatus` returns `ErrOTPExpired` and the committed
ledger is the ledger before the call: `r` is still in it with status Unused. -/
theorem expired_consume_untouched (db : Ledger) (hsu : SingleUnused db) (userID : Nat)
    (otp : String) (r : OTP) (hr : r ∈ db) (hu : r.user_id = userID) (hc : r.otp = otp)
    (hst : r.status = otpStatusUnused) (nowFunc : Nat → Time)
    (hexp : r.expired_at < nowFunc 0) (requestID : String) :
    UpdateOTPStatus noFaults nowFunc db userID otp requestID =
        (some Error.ErrOTPExpired, db) ∧
    ∃ r2 ∈ (UpdateOTPStatus noFaults nowFunc db userID otp requestID).2,
      r2 = r ∧ r2.status = otpStatusUnused := by
  have h := UpdateOTPStatus_expired (find?_otp_of_single hsu hr hu hc hst) hexp requestID
  rw [h]
  exact ⟨rfl, r, hr, rfl, hst⟩

/-- The repository test `ErrorOTPAlreadyExpired`: at minute 3 the sample code, expired at
minute 2, is refused with `ErrOTPExpired` and the ledger stays as it was. -/
theorem expired_consume_untouched_witness :
    UpdateOTPStatus noFaults (fun _ => 3 * Minute) sampleLedger 1 "12345" "req-3" =
      (some Error.ErrOTPExpired, sampleLedger) :=
  (expired_consume_untouched sampleLedger (singleUnused_of_check (by decide)) 1 "12345"
    sampleOTP (by decide) rfl rfl rfl (fun _ => 3 * Minute) (by decide) "req-3").1

/-! ### Status changes of single records -/

theorem oneWay_refl (s : Nat) : OneWay s s := Or.inl rfl

theorem oneWay_terminal {before after : Nat} (h : OneWay before after)
    (ht : before = otpStatusUsed ∨ before = otpStatusExpired) : after = before := by
  rcases h with h | ⟨h, _⟩
  · exact h
  · rcases ht with ht | ht <;> rw [h] at ht <;> exact absurd ht (by decide)

/-- `UPDATE .. WHERE id = z.id` for an Unused row `z` moves only `z`, to the new status. -/
theorem oneWay_updateStatus_of_mem {db : Ledger} (hwf : WellFormed db) {z : OTP}
    (hz : z ∈ db) (hzs : z.status = otpStatusUnused) {s : Nat}
    (hs : s = otpStatusUsed ∨ s = otpStatusExpired) :
    ∀ r ∈ db, ∀ y ∈ updateStatus db s z.id, y.id = r.id → OneWay r.status y.status := by
  intro r hr y hy hid
  rcases mem_updateStatus hy with ⟨x, hx, rfl⟩
  by_cases hxz : x.id = z.id
  · rw [if_pos hxz] at hid ⊢
    have hxr : x = r := eq_of_id_eq hwf.2 hx hr hid
    have hxz2 : x = z := eq_of_id_eq hwf.2 hx hz hxz
    rw [← hxr, hxz2]
    exact Or.inr ⟨hzs, hs⟩
  · rw [if_neg hxz] at hid ⊢
    rw [eq_of_id_eq hwf.2 hx hr hid]
    exact oneWay_refl _

theorem oneWay_of_mem_self {db : Ledger} (hwf : WellFormed db) :
    ∀ r ∈ db, ∀ y ∈ db, y.id = r.id → OneWay r.status y.status := by
  intro r hr y hy hid
  rw [eq_of_id_eq hwf.2 hy hr hid]
  exact oneWay_refl _

/-- The `UPDATE` of `StoreOTP` moves at most the scanned Unused row, to Expired. -/
theorem oneWay_expire_scanned {db : Ledger} (hwf : WellFormed db) (u : Nat) :
    ∀ r ∈ db, ∀ y ∈ updateStatus db otpStatusExpired (scannedID db u), y.id = r.id →
      OneWay r.status y.status := by
  cases hf : db.find? (fun x => x.user_id == u && x.status == otpStatusUnused) with
  | none =>
    have h0 : scannedID db u = 0 := by
      simp [scannedID, scannedRow, selectByUserStatus, hf]
    rw [h0, updateStatus_zero hwf]
    exact oneWay_of_mem_self hwf
  | some z =>
    have hz : z ∈ db := List.mem_of_find?_eq_some hf
    have hp := List.find?_some hf
    simp only [Bool.and_eq_true, beq_iff_eq] at hp
    have h0 : scannedID db u = z.id := by
      simp [scannedID, scannedRow, selectByUserStatus, hf]
    rw [h0]
    exact oneWay_updateStatus_of_mem hwf hz hp.2 (Or.inr rfl)

theorem oneWay_StoreOTP {db : Ledger} (hwf : WellFormed db) (fl : Faults)
    (nowFunc : Nat → Time) (userID : Nat) (otp requestID : String) :
    ∀ r ∈ db, ∀ y ∈ (StoreOTP fl nowFunc db userID otp requestID).2, y.id = r.id →
      OneWay r.status y.status := by
  rcases StoreOTP_cases fl nowFunc db userID otp requestID with ⟨_, h⟩ | ⟨_, _, h⟩
  · rw [h]; exact oneWay_of_mem_self hwf
  · rw [h, insertOTP_eq]
    intro r hr y hy hid
    rcases List.mem_append.1 hy with hy | hy
    · exact oneWay_expire_scanned hwf userID r hr y hy hid
    · simp only [List.mem_singleton] at hy
      have hlt := id_lt_nextID hr
      rw [← nextID_updateStatus db otpStatusExpired (scannedID db userID), ← hid, hy] at hlt
      simp [newOTP] at hlt

theorem oneWay_UpdateOTPStatus {db : Ledger} (hwf : WellFormed db) (fl : Faults)
    (nowFunc : Nat → Time) (userID : Nat) (otp requestID : String) :
    ∀ r ∈ db, ∀ y ∈ (UpdateOTPStatus fl nowFunc db userID otp requestID).2, y.id = r.id →
      OneWay r.status y.status := by
  rcases UpdateOTPStatus_cases fl nowFunc db userID otp requestID with
    ⟨_, h⟩ | ⟨_, z, hf, _, h⟩
  · rw [h]; exact oneWay_of_mem_self hwf
  · rw [h]
    have hz : z ∈ db := List.mem_of_find?_eq_some hf
    have hp := List.find?_some hf
    simp only [Bool.and_eq_true, beq_iff_eq] at hp
    exact oneWay_updateStatus_of_mem hwf hz hp.2 (Or.inl rfl)

/-- C7 (one-way status). On a ledger with the key constraint, after any call of `StoreOTP`
or `UpdateOTPStatus` (any arguments, clock and failing step) the record carrying the id of a
record `r` of the old ledger has either the status `r` had, or `r` was Unused and it is now
Used or Expired; so a record that was Used or Expired keeps its status. -/
theorem status_one_way (db : Ledger) (hwf : WellFormed db) (fl : Faults)
    (nowFunc : Nat → Time) (userID : Nat) (otp requestID : String) :
    (∀ r ∈ db, ∀ r2 ∈ (StoreOTP fl nowFunc db userID otp requestID).2, r2.id = r.id →
      OneWay r.status r2.status ∧
      (r.status = otpStatusUsed ∨ r.status = otpStatusExpired → r2.status = r.status)) ∧
    (∀ r ∈ db, ∀ r2 ∈ (UpdateOTPStatus fl nowFunc db userID otp requestID).2, r2.id = r.id →
      OneWay r.status r2.status ∧
      (r.status = otpStatusUsed ∨ r.status = otpStatusExpired → r2.status = r.status)) :=
  ⟨fun r hr r2 hr2 hid =>
      ⟨oneWay_StoreOTP hwf fl nowFunc userID otp requestID r hr r2 hr2 hid,
        oneWay_terminal (oneWay_StoreOTP hwf fl nowFunc userID otp requestID r hr r2 hr2 hid)⟩,
    fun r hr r2 hr2 hid =>
      ⟨oneWay_UpdateOTPStatus hwf fl nowFunc userID otp requestID r hr r2 hr2 hid,
        oneWay_terminal
          (oneWay_UpdateOTPStatus hwf fl nowFunc userID otp requestID r hr r2 hr2 hid)⟩⟩

/-- On the sample ledger, an issue for user 1 at minute 3 moves the stale sample code from
Unused to Expired and leaves the Used record of user 2 as it is. -/
theorem status_one_way_witness :
    OneWay sampleOTP.status (withStatus sampleOTP otpStatusExpired).status ∧
    sampleUsed.status = otpStatusUsed :=
  have h := (status_one_way sampleLedger (by decide) noFaults (fun _ => 3 * Minute) 1
    "xxxxx" "fake-request-id").1
  ⟨(h sampleOTP (by decide) (withStatus sampleOTP otpStatusExpired) (by decide) rfl).1,
    (h sampleUsed (by decide) sampleUsed (by decide) rfl).2 (Or.inl rfl)⟩

/-! ### Failing database steps -/

theorem StoreOTP_error_unchanged (fl : Faults) (nowFunc : Nat → Time) (db : Ledger)
    (userID : Nat) (otp requestID : String)
    (h : (StoreOTP fl nowFunc db userID otp requestID).1 ≠ none) :
    (StoreOTP fl nowFunc db userID otp requestID).2 = db := by
  rcases StoreOTP_cases fl nowFunc db userID otp requestID with ⟨_, h2⟩ | ⟨h2, _⟩
  · exact h2
  · exact absurd h2 h

theorem UpdateOTPStatus_error_unchanged (fl : Faults) (nowFunc : Nat → Time) (db : Ledger)
    (userID : Nat) (otp requestID : String)
    (h : (UpdateOTPStatus fl nowFunc db userID otp requestID).1 ≠ none) :
    (UpdateOTPStatus fl nowFunc db userID otp requestID).2 = db := by
  rcases UpdateOTPStatus_cases fl nowFunc db userID otp requestID with ⟨_, h2⟩ | ⟨h2, _⟩
  · exact h2
  · exact absurd h2 h

theorem not_storeRejects_of_stale {db : Ledger} (hsu : SingleUnused db) {userID : Nat}
    {r : OTP} (hr : r ∈ db) (hu : r.user_id = userID) (hst : r.status = otpStatusUnused)
    {nowFunc : Nat → Time} (hstale : r.expired_at ≤ nowFunc 0) :
    ¬ storeRejects nowFunc db userID := by
  intro h
  have hrow : scannedRow db userID = (r.id, r.expired_at) := by
    simp [scannedRow, selectByUserStatus, find?_unused_of_single hsu hr hu hst]
  unfold storeRejects at h
  rw [hrow] at h
  exact absurd h.2 (not_lt.2 hstale)

theorem StoreOTP_insert_or_commit_fails (fl : Faults) (nowFunc : Nat → Time) (db : Ledger)
    (userID : Nat) (otp requestID : String) (hb : fl.beginTx = none) (hq : fl.query = none)
    (hrej : ¬ storeRejects nowFunc db userID) (hup : fl.execUpdate = none)
    (hf : fl.execInsert ≠ none ∨ fl.commit ≠ none) :
    ∃ e, StoreOTP fl nowFunc db userID otp requestID = (some (Error.StoreError e), db) ∧
      (fl.execInsert = some e ∨ (fl.execInsert = none ∧ fl.commit = some e)) := by
  rcases fl with ⟨b, q, up, ins, cm⟩
  simp only at hb hq hup hf
  subst hb hq hup
  unfold storeRejects scannedRow at hrej
  cases ins with
  | some e => exact ⟨e, by simp [StoreOTP, hrej], Or.inl rfl⟩
  | none =>
    cases cm with
    | some e => exact ⟨e, by simp [StoreOTP, hrej], Or.inr ⟨rfl, rfl⟩⟩
    | none => simp at hf

/-- C8 (atomic failure). For every ledger and every call of `StoreOTP` or `UpdateOTPStatus`:
whenever the call returns an error the committed ledger is the ledger before the call; the
error returned is that of the first step that fails among the steps the call reaches
(begin, lookup, the commit of the rejecting paths, status update, insert, final commit); in
particular, when the stale Unused record has been set to Expired inside the transaction and
the insert or the commit then fails, the call returns that store error and the record is
still in the committed ledger with status Unused. -/
theorem atomic_failure (fl : Faults) (nowFunc : Nat → Time) (db : Ledger) (userID : Nat)
    (otp requestID : String) :
    ((StoreOTP fl nowFunc db userID otp requestID).1 ≠ none →
      (StoreOTP fl nowFunc db userID otp requestID).2 = db) ∧
    ((UpdateOTPStatus fl nowFunc db userID otp requestID).1 ≠ none →
      (UpdateOTPStatus fl nowFunc db userID otp requestID).2 = db) ∧
    -- `StoreOTP`, step by step
    (∀ e, fl.beginTx = some e →
      StoreOTP fl nowFunc db userID otp requestID = (some (Error.StoreError e), db)) ∧
    (∀ e, fl.beginTx = none → fl.query = some e →
      StoreOTP fl nowFunc db userID otp requestID = (some (Error.StoreError e), db)) ∧
    (∀ e, fl.beginTx = none → fl.query = none → storeRejects nowFunc db userID →
      fl.commit = some e →
      StoreOTP fl nowFunc db userID otp requestID = (some (Error.StoreError e), db)) ∧
    (∀ e, fl.beginTx = none → fl.query = none → ¬ storeRejects nowFunc db userID →
      fl.execUpdate = some e →
      StoreOTP fl nowFunc db userID otp requestID = (some (Error.StoreError e), db)) ∧
    (∀ e, fl.beginTx = none → fl.query = none → ¬ storeRejects nowFunc db userID →
      fl.execUpdate = none → fl.execInsert = some e →
      StoreOTP fl nowFunc db userID otp requestID = (some (Error.StoreError e), db)) ∧
    (∀ e, fl.beginTx = none → fl.query = none → ¬ storeRejects nowFunc db userID →
      fl.execUpdate = none → fl.execInsert = none → fl.commit = some e →
      StoreOTP fl nowFunc db userID otp requestID = (some (Error.StoreError e), db)) ∧
    -- `UpdateOTPStatus`, step by step
    (∀ e, fl.beginTx = some e →
      UpdateOTPStatus fl nowFunc db userID otp requestID = (some (Error.StoreError e), db)) ∧
    (∀ e, fl.beginTx = none → fl.query = some e →
      UpdateOTPStatus fl nowFunc db userID otp requestID = (some (Error.StoreError e), db)) ∧
    (∀ e uid expiredAt, fl.beginTx = none → fl.query = none →
      selectByUserOTPStatus db userID otp otpStatusUnused = some (uid, expiredAt) →
      expiredAt < nowFunc 0 → fl.commit = some e →
      UpdateOTPStatus fl nowFunc db userID otp requestID = (some (Error.StoreError e), db)) ∧
    (∀ e uid expiredAt, fl.beginTx = none → fl.query = none →
      selectByUserOTPStatus db userID otp otpStatusUnused = some (uid, expiredAt) →
      ¬ expiredAt < nowFunc 0 → fl.execUpdate = some e →
      UpdateOTPStatus fl nowFunc db userID otp requestID = (some (Error.StoreError e), db)) ∧
    (∀ e uid expiredAt, fl.beginTx = none → fl.query = none →
      selectByUserOTPStatus db userID otp otpStatusUnused = some (uid, expiredAt) →
      ¬ expiredAt < nowFunc 0 → fl.execUpdate = none → fl.commit = some e →
      UpdateOTPStatus fl nowFunc db userID otp requestID = (some (Error.StoreError e), db)) ∧
    -- the stale record survives a failing insert or commit
    (∀ r ∈ db, SingleUnused db → r.user_id = userID → r.status = otpStatusUnused →
      r.expired_at ≤ nowFunc 0 → fl.beginTx = none → fl.query = none →
      fl.execUpdate = none → (fl.execInsert ≠ none ∨ fl.commit ≠ none) →
      ∃ e, StoreOTP fl nowFunc db userID otp requestID = (some (Error.StoreError e), db) ∧
        (fl.execInsert = some e ∨ (fl.execInsert = none ∧ fl.commit = some e)) ∧
        r ∈ (StoreOTP fl nowFunc db userID otp requestID).2) := by
  refine ⟨StoreOTP_error_unchanged fl nowFunc db userID otp requestID,
    UpdateOTPStatus_error_unchanged fl nowFunc db userID otp requestID,
    ?_, ?_, ?_, ?_, ?_, ?_, ?_, ?_, ?_, ?_, ?_, ?_⟩
  · intro e hb
    simp [StoreOTP, hb]
  · intro e hb hq
    simp [StoreOTP, hb, hq]
  · intro e hb hq hrej hc
    unfold storeRejects scannedRow at hrej
    simp [StoreOTP, hb, hq, hrej, hc]
  · intro e hb hq hrej hu
    unfold storeRejects scannedRow at hrej
    simp [StoreOTP, hb, hq, hrej, hu]
  · intro e hb hq hrej hu hi
    unfold storeRejects scannedRow at hrej
    simp [StoreOTP, hb, hq, hrej, hu, hi]
  · intro e hb hq hrej hu hi hc
    unfold storeRejects scannedRow at hrej
    simp [StoreOTP, hb, hq, hrej, hu, hi, hc]
  · intro e hb
    simp [UpdateOTPStatus, hb]
  · intro e hb hq
    simp [UpdateOTPStatus, hb, hq]
  · intro e uid expiredAt hb hq hsel hexp hc
    simp [UpdateOTPStatus, hb, hq, hsel, hexp, hc]
  · intro e uid expiredAt hb hq hsel hexp hu
    simp [UpdateOTPStatus, hb, hq, hsel, hexp, hu]
  · intro e uid expiredAt hb hq hsel hexp hu hc
    simp [UpdateOTPStatus, hb, hq, hsel, hexp, hu, hc]
  · intro r hr hsu hu hst hstale hb hq hup hf
    rcases StoreOTP_insert_or_commit_fails fl nowFunc db userID otp requestID hb hq
      (not_storeRejects_of_stale hsu hr hu hst hstale) hup hf with ⟨e, he, hwhich⟩
    refine ⟨e, he, hwhich, ?_⟩
    rw [he]
    exact hr

/-- The repository tests `ErrorInsertingNewOTP` and `ErrorUpdatingOTPStatus` on the sample
ledger: a failing insert (issue at minute 3, after the stale code was set to Expired) and a
failing status update (consume at minute 1) return the driver's error and leave the sample
ledger, with the sample code still Unused, as it was. -/
theorem atomic_failure_witness :
    StoreOTP { noFaults with execInsert := some "fake error" } (fun _ => 3 * Minute)
        sampleLedger 1 "xxxxx" "fake-request-id" =
      (some (Error.StoreError "fake error"), sampleLedger) ∧
    UpdateOTPStatus { noFaults with execUpdate := some "fake error" } (fun _ => Minute)
        sampleLedger 1 "12345" "fake-request-id" =
      (some (Error.StoreError "fake error"), sampleLedger) :=
  ⟨(atomic_failure { noFaults with execInsert := some "fake error" } (fun _ => 3 * Minute)
      sampleLedger 1 "xxxxx" "fake-request-id").2.2.2.2.2.2.1
      "fake error" rfl rfl (by decide) rfl rfl,
    (atomic_failure { noFaults with execUpdate := some "fake error" } (fun _ => Minute)
      sampleLedger 1 "12345" "fake-request-id").2.2.2.2.2.2.2.2.2.2.2.1
      "fake error" 1 (2 * Minute) rfl rfl (by decide) (by decide) rfl⟩

/-- C9 (first issue). On a ledger with the key constraint in which `userID` has no Unused
record, with the clock fixed at `now` and a working database, `StoreOTP` returns `nil` and
the committed ledger is the old ledger, every record unchanged, followed by exactly one new
record with that user, code and request id, status Unused and
`expired_at = now + 5 minutes`. -/
theorem first_issue (db : Ledger) (hwf : WellFormed db) (userID : Nat)
    (hno : ∀ r ∈ db, r.user_id = userID → r.status ≠ otpStatusUnused) (now : Time)
    (otp requestID : String) :
    StoreOTP noFaults (fun _ => now) db userID otp requestID =
      (none, db ++ [newOTP (nextID db) userID otp requestID (now + 5 * Minute)]) :=
  StoreOTP_first hwf hno (fun _ => now) otp requestID

/-- User 2 of the sample ledger holds only a Used record: an issue at minute 1 appends a
record with id 3 that expires at minute 6, and an issue on the empty ledger creates the
record with id 1. -/
theorem first_issue_witness :
    StoreOTP noFaults (fun _ => Minute) sampleLedger 2 "xxxxx" "fake-request-id" =
        (none, [sampleOTP, sampleUsed,
          newOTP 3 2 "xxxxx" "fake-request-id" (Minute + 5 * Minute)]) ∧
    StoreOTP noFaults (fun _ => Minute) [] 2 "xxxxx" "fake-request-id" =
        (none, [newOTP 1 2 "xxxxx" "fake-request-id" (Minute + 5 * Minute)]) :=
  ⟨first_issue sampleLedger (by decide) 2 (by decide) Minute "xxxxx" "fake-request-id",
    first_issue [] (by decide) 2 (by decide) Minute "xxxxx" "fake-request-id"⟩

/-- C10 (boundary asymmetry). On a ledger with the key constraint and at most one Unused
record per user, for an Unused record `r` with `expired_at = now` and a working database:
`UpdateOTPStatus` with its user and code at `now` returns `nil` and marks `r` Used, whereas
`StoreOTP` for the same user at `now` does not return `ErrOTPExist`: it returns `nil`,
marks `r` Expired and appends a new Unused record. -/
theorem boundary_asymmetry (db : Ledger) (hwf : WellFormed db) (hsu : SingleUnused db)
    (r : OTP) (hr : r ∈ db) (hst : r.status = otpStatusUnused) (now : Time)
    (hnow : r.expired_at = now) (otp requestID requestID2 : String) :
    UpdateOTPStatus noFaults (fun _ => now) db r.user_id r.otp requestID2 =
        (none, markStatus db r otpStatusUsed) ∧
    (StoreOTP noFaults (fun _ => now) db r.user_id otp requestID).1 ≠
        some Error.ErrOTPExist ∧
    StoreOTP noFaults (fun _ => now) db r.user_id otp requestID =
        (none, markStatus db r otpStatusExpired ++
          [newOTP (nextID db) r.user_id otp requestID (now + 5 * Minute)]) := by
  have hs := StoreOTP_lazy_expiry hwf hsu hr rfl hst (le_of_eq hnow) otp requestID
  refine ⟨?_, ?_, hs⟩
  · exact UpdateOTPStatus_consume hwf hsu hr rfl rfl hst (le_of_eq hnow.symm) requestID2
  · rw [hs]
    simp

/-- At minute 2 exactly, the instant the sample code expires, a consume succeeds and marks
it Used, while an issue marks it Expired and appends a code expiring at minute 7. -/
theorem boundary_asymmetry_witness :
    UpdateOTPStatus noFaults (fun _ => 2 * Minute) sampleLedger 1 "12345" "req-3" =
        (none, [withStatus sampleOTP otpStatusUsed, sampleUsed]) ∧
    StoreOTP noFaults (fun _ => 2 * Minute) sampleLedger 1 "xxxxx" "fake-request-id" =
        (none, [withStatus sampleOTP otpStatusExpired, sampleUsed,
          newOTP 3 1 "xxxxx" "fake-request-id" (2 * Minute + 5 * Minute)]) :=
  have h := boundary_asymmetry sampleLedger (by decide) (singleUnused_of_check (by decide))
    sampleOTP (by decide) rfl (2 * Minute) rfl "xxxxx" "fake-request-id" "req-3"
  ⟨h.1, h.2.2⟩

/-! ### Records are kept -/

theorem sameButStatus_refl (r : OTP) : sameButStatus r r :=
  ⟨rfl, rfl, rfl, rfl, rfl⟩

theorem forall₂_sameButStatus_self (db : Ledger) : List.Forall₂ sameButStatus db db := by
  induction db with
  | nil => exact List.Forall₂.nil
  | cons x xs ih => exact List.Forall₂.cons (sameButStatus_refl x) ih

theorem forall₂_sameButStatus_updateStatus (db : Ledger) (s i : Nat) :
    List.Forall₂ sameButStatus db (updateStatus db s i) := by
  unfold updateStatus
  induction db with
  | nil => exact List.Forall₂.nil
  | cons x xs ih =>
    refine List.Forall₂.cons ?_ ih
    by_cases h : x.id = i
    · simp only [if_pos h]; exact ⟨rfl, rfl, rfl, rfl, rfl⟩
    · simp only [if_neg h]; exact sameButStatus_refl x

theorem length_updateStatus (db : Ledger) (s i : Nat) :
    (updateStatus db s i).length = db.length := by
  unfold updateStatus
  rw [List.length_map]

theorem forall₂_sameButStatus_StoreOTP (fl : Faults) (nowFunc : Nat → Time) (db : Ledger)
    (userID : Nat) (otp requestID : String) :
    List.Forall₂ sameButStatus db
      ((StoreOTP fl nowFunc db userID otp requestID).2.take db.length) := by
  rcases StoreOTP_cases fl nowFunc db userID otp requestID with ⟨_, h⟩ | ⟨_, _, h⟩
  · rw [h, List.take_length]
    exact forall₂_sameButStatus_self db
  · rw [h, insertOTP_eq]
    have hlen := length_updateStatus db otpStatusExpired (scannedID db userID)
    rw [← hlen, List.take_left]
    exact forall₂_sameButStatus_updateStatus db _ _

theorem forall₂_sameButStatus_UpdateOTPStatus (fl : Faults) (nowFunc : Nat → Time)
    (db : Ledger) (userID : Nat) (otp requestID : String) :
    List.Forall₂ sameButStatus db
      ((UpdateOTPStatus fl nowFunc db userID otp requestID).2.take db.length) := by
  rcases UpdateOTPStatus_cases fl nowFunc db userID otp requestID with
    ⟨_, h⟩ | ⟨_, r, _, _, h⟩
  · rw [h, List.take_length]
    exact forall₂_sameButStatus_self db
  · rw [h]
    have hlen := length_updateStatus db otpStatusUsed r.id
    rw [← hlen, List.take_length]
    exact forall₂_sameButStatus_updateStatus db _ _

theorem exists_of_forall₂_take {db after : Ledger}
    (h : List.Forall₂ sameButStatus db (after.take db.length)) :
    ∀ r ∈ db, ∃ r2 ∈ after, sameButStatus r r2 := by
  intro r hr
  rcases List.mem_iff_getElem.1 hr with ⟨n, hn, rfl⟩
  have hlen := h.length_eq
  have hn2 : n < (after.take db.length).length := by omega
  refine ⟨(after.take db.length)[n], List.mem_of_mem_take (List.getElem_mem hn2), ?_⟩
  exact (List.forall₂_iff_get.1 h).2 n hn hn2

/-- C11 (append-only ledger, immutable codes). For every ledger and every call of `StoreOTP`
or `UpdateOTPStatus` (any arguments, clock and failing step), the committed ledger starts
with the old records in their old order, each with the same id, user, code, request id and
expiry (only `status` may differ); so no record is removed and every old record is still
present with those columns unchanged. -/
theorem append_only_ledger (fl : Faults) (nowFunc : Nat → Time) (db : Ledger) (userID : Nat)
    (otp requestID : String) :
    (List.Forall₂ sameButStatus db
        ((StoreOTP fl nowFunc db userID otp requestID).2.take db.length) ∧
      db.length ≤ (StoreOTP fl nowFunc db userID otp requestID).2.length ∧
      ∀ r ∈ db, ∃ r2 ∈ (StoreOTP fl nowFunc db userID otp requestID).2, sameButStatus r r2) ∧
    (List.Forall₂ sameButStatus db
        ((UpdateOTPStatus fl nowFunc db userID otp requestID).2.take db.length) ∧
      db.length ≤ (UpdateOTPStatus fl nowFunc db userID otp requestID).2.length ∧
      ∀ r ∈ db, ∃ r2 ∈ (UpdateOTPStatus fl nowFunc db userID otp requestID).2,
        sameButStatus r r2) := by
  have h1 := forall₂_sameButStatus_StoreOTP fl nowFunc db userID otp requestID
  have h2 := forall₂_sameButStatus_UpdateOTPStatus fl nowFunc db userID otp requestID
  refine ⟨⟨h1, ?_, exists_of_forall₂_take h1⟩, ⟨h2, ?_, exists_of_forall₂_take h2⟩⟩
  · have := h1.length_eq
    rw [List.length_take] at this
    omega
  · have := h2.length_eq
    rw [List.length_take] at this
    omega

/-! ### Issue calls one after the other -/

theorem runStoreOTPs_rejected {db : Ledger} (hwf : WellFormed db) (hsu : SingleUnused db)
    {userID : Nat} {r : OTP} (hr : r ∈ db) (hu : r.user_id = userID)
    (hst : r.status = otpStatusUnused) :
    ∀ calls : List (Time × String × String), (∀ c ∈ calls, c.1 < r.expired_at) →
      runStoreOTPs db userID calls = calls.map (fun _ => (some Error.ErrOTPExist, db)) := by
  intro calls
  induction calls with
  | nil => intro _; rfl
  | cons c cs ih =>
    intro hc
    have hlive : (fun _ : Nat => c.1) 0 < r.expired_at := hc c (List.mem_cons_self c cs)
    have h1 := @StoreOTP_live db userID r (find?_unused_of_single hsu hr hu hst)
      (fun _ => c.1) (hwf.1 r hr) hlive c.2.1 c.2.2
    simp only [runStoreOTPs, List.map_cons]
    rw [h1]
    rw [ih (fun x hx => hc x (List.mem_cons_of_mem c hx))]

/-- A fault-free issue for a user without live Unused record succeeds and appends the new
record, whether or not a stale record had to be expired. -/
theorem StoreOTP_not_live {db : Ledger} (hwf : WellFormed db) (hsu : SingleUnused db)
    {userID : Nat} {now : Time}
    (hstale : ∀ r ∈ db, r.user_id = userID → r.status = otpStatusUnused → r.expired_at ≤ now)
    (otp requestID : String) :
    ∃ db1 : Ledger, StoreOTP noFaults (fun _ => now) db userID otp requestID =
      (none, db1 ++ [newOTP (nextID db) userID otp requestID (now + 5 * Minute)]) := by
  by_cases hex : ∃ r ∈ db, r.user_id = userID ∧ r.status = otpStatusUnused
  · rcases hex with ⟨r, hr, hu, hs⟩
    exact ⟨_, StoreOTP_lazy_expiry hwf hsu hr hu hs (hstale r hr hu hs) otp requestID⟩
  · refine ⟨db, StoreOTP_first hwf ?_ (fun _ => now) otp requestID⟩
    intro r hr hu hs
    exact hex ⟨r, hr, hu, hs⟩

/-- C12 (one winner among N issues). On a ledger with the key constraint and at most one
Unused record per user, let `userID` have no live Unused record at the first call's clock
value `t1`, and let `N = rest.length + 1` calls of `StoreOTP` for that user run one after
the other on a working database, every later call with a clock value strictly before
`t1 + 5 minutes`, the expiry of the record the first call creates. Then the first call
returns `nil`, each of the other `N - 1` calls returns `ErrOTPExist` (so exactly one call
succeeds), and every ledger committed along the way has at most one Unused record per
user. -/
theorem one_winner_among_issues (db : Ledger) (hwf : WellFormed db) (hsu : SingleUnused db)
    (userID : Nat) (t1 : Time) (otp1 requestID1 : String)
    (rest : List (Time × String × String))
    (hstale : ∀ r ∈ db, r.user_id = userID → r.status = otpStatusUnused → r.expired_at ≤ t1)
    (hclock : ∀ c ∈ rest, c.1 < t1 + 5 * Minute) :
    (runStoreOTPs db userID ((t1, otp1, requestID1) :: rest)).map Prod.fst =
        none :: List.replicate rest.length (some Error.ErrOTPExist) ∧
    ((runStoreOTPs db userID ((t1, otp1, requestID1) :: rest)).map Prod.fst).count none = 1 ∧
    ((runStoreOTPs db userID ((t1, otp1, requestID1) :: rest)).map Prod.fst).count
        (some Error.ErrOTPExist) = rest.length ∧
    ∀ x ∈ runStoreOTPs db userID ((t1, otp1, requestID1) :: rest),
      SingleUnused x.2 ∧ unusedCount x.2 userID ≤ 1 := by
  have hwf1 := wellFormed_StoreOTP hwf noFaults (fun _ => t1) userID otp1 requestID1
  have hsu1 := singleUnused_StoreOTP hsu noFaults (fun _ => t1) userID otp1 requestID1
  rcases StoreOTP_not_live hwf hsu hstale otp1 requestID1 with ⟨db1, h1⟩
  have hmem : newOTP (nextID db) userID otp1 requestID1 (t1 + 5 * Minute) ∈
      (StoreOTP noFaults (fun _ => t1) db userID otp1 requestID1).2 := by
    rw [h1]; simp
  have hrun : runStoreOTPs (StoreOTP noFaults (fun _ => t1) db userID otp1 requestID1).2
      userID rest = rest.map (fun _ => (some Error.ErrOTPExist,
        (StoreOTP noFaults (fun _ => t1) db userID otp1 requestID1).2)) :=
    runStoreOTPs_rejected hwf1 hsu1 hmem rfl rfl rest hclock
  have hres : (runStoreOTPs db userID ((t1, otp1, requestID1) :: rest)).map Prod.fst =
      none :: List.replicate rest.length (some Error.ErrOTPExist) := by
    simp only [runStoreOTPs, List.map_cons]
    rw [hrun, h1]
    simp
  refine ⟨hres, ?_, ?_, ?_⟩
  · rw [hres]
    simp [List.count_cons, List.count_replicate]
  · rw [hres]
    simp [List.count_cons, List.count_replicate]
  · intro x hx
    have hx2 : x.2 = (StoreOTP noFaults (fun _ => t1) db userID otp1 requestID1).2 := by
      simp only [runStoreOTPs, List.mem_cons] at hx
      rcases hx with hx | hx
      · rw [hx]
      · rw [hrun] at hx
        rcases List.mem_map.1 hx with ⟨_, _, rfl⟩
        rfl
    rw [hx2]
    exact ⟨hsu1, hsu1 userID⟩

/-- Three issues for user 1 of the sample ledger, at minutes 3, 4 and 7 (the record created
at minute 3 expires at minute 8): the first succeeds, the two others get `ErrOTPExist`. -/
theorem one_winner_among_issues_witness :
    (runStoreOTPs sampleLedger 1
        [(3 * Minute, "11111", "req-a"), (4 * Minute, "22222", "req-b"),
          (7 * Minute, "33333", "req-c")]).map Prod.fst =
      [none, some Error.ErrOTPExist, some Error.ErrOTPExist] :=
  (one_winner_among_issues sampleLedger (by decide) (singleUnused_of_check (by decide)) 1
    (3 * Minute) "11111" "req-a" [(4 * Minute, "22222", "req-b"), (7 * Minute, "33333", "req-c")]
    (by decide) (by decide)).1

/-! ### The request id at validation -/

theorem selectByUserOTPStatus_withRequestID (g : String → String) (db : Ledger) (u : Nat)
    (c : String) (s : Nat) :
    selectByUserOTPStatus (db.map (withRequestID g)) u c s = selectByUserOTPStatus db u c s := by
  unfold selectByUserOTPStatus
  rw [List.find?_map, Option.map_map]
  rfl

theorem updateStatus_withRequestID (g : String → String) (db : Ledger) (s i : Nat) :
    updateStatus (db.map (withRequestID g)) s i = (updateStatus db s i).map (withRequestID g) := by
  unfold updateStatus
  rw [List.map_map, List.map_map]
  apply List.map_congr_left
  intro r _
  by_cases h : r.id = i <;> simp [withRequestID, h]

/-- C16 (the request id is no authorization factor at validation). For every ledger, user,
code, clock and failing step and any two request ids `r1`, `r2`, `UpdateOTPStatus` with `r1`
and with `r2` return the same error and commit the same ledger; and the request ids stored
in the ledger do not matter either: replacing them by any others changes neither the error
nor, apart from those stored ids, the committed ledger. -/
theorem requestID_not_compared (fl : Faults) (nowFunc : Nat → Time) (db : Ledger)
    (userID : Nat) (otp r1 r2 : String) (g : String → String) :
    UpdateOTPStatus fl nowFunc db userID otp r1 = UpdateOTPStatus fl nowFunc db userID otp r2 ∧
    UpdateOTPStatus fl nowFunc (db.map (withRequestID g)) userID otp r2 =
      ((UpdateOTPStatus fl nowFunc db userID otp r1).1,
        (UpdateOTPStatus fl nowFunc db userID otp r1).2.map (withRequestID g)) := by
  refine ⟨rfl, ?_⟩
  rcases fl with ⟨b, q, up, ins, cm⟩
  unfold UpdateOTPStatus
  rw [selectByUserOTPStatus_withRequestID]
  cases hsel : selectByUserOTPStatus db userID otp otpStatusUnused with
  | none => cases b <;> cases q <;> simp
  | some row =>
    cases b <;> cases q <;> cases up <;> cases cm <;> simp <;> (try split_ifs) <;>
      simp [updateStatus_withRequestID]

/-! ### The service layer -/

theorem GenerateOTP_lookup_error {σ ε : Type} (u : Service.User σ ε)
    (userUUID requestID : String) (s : σ) {uid : Nat} {e : ε} {s1 : σ}
    (h : u.userRepo.GetUserIDByUUID userUUID s = ((uid, some e), s1)) :
    Service.GenerateOTP u userUUID requestID s = (("", some e), s1) := by
  simp [Service.GenerateOTP, h]

theorem GenerateOTP_generator_error {σ ε : Type} (u : Service.User σ ε)
    (userUUID requestID : String) (s : σ) {uid : Nat} {s1 : σ} {out : String} {e : ε} {s2 : σ}
    (h : u.userRepo.GetUserIDByUUID userUUID s = ((uid, none), s1))
    (hg : u.otpGenerator Service.otpLength s1 = ((out, some e), s2)) :
    Service.GenerateOTP u userUUID requestID s = (("", some e), s2) := by
  simp [Service.GenerateOTP, h, hg]

theorem GenerateOTP_store {σ ε : Type} (u : Service.User σ ε)
    (userUUID requestID : String) (s : σ) {uid : Nat} {s1 : σ} {otp : String} {s2 : σ}
    (h : u.userRepo.GetUserIDByUUID userUUID s = ((uid, none), s1))
    (hg : u.otpGenerator Service.otpLength s1 = ((otp, none), s2)) :
    Service.GenerateOTP u userUUID requestID s =
      (match (u.userRepo.StoreOTP uid otp requestID s2).1 with
        | some e => ("", some e)
        | none => (otp, none),
        (u.userRepo.StoreOTP uid otp requestID s2).2) := by
  simp only [Service.GenerateOTP, h, hg]
  rcases hst : u.userRepo.StoreOTP uid otp requestID s2 with ⟨err, s3⟩
  cases err <;> rfl

theorem ValidateOTP_lookup_error {σ ε : Type} (u : Service.User σ ε)
    (userUUID otp requestID : String) (s : σ) {uid : Nat} {e : ε} {s1 : σ}
    (h : u.userRepo.GetUserIDByUUID userUUID s = ((uid, some e), s1)) :
    Service.ValidateOTP u userUUID otp requestID s = (some e, s1) := by
  simp [Service.ValidateOTP, h]

theorem ValidateOTP_lookup_ok {σ ε : Type} (u : Service.User σ ε)
    (userUUID otp requestID : String) (s : σ) {uid : Nat} {s1 : σ}
    (h : u.userRepo.GetUserIDByUUID userUUID s = ((uid, none), s1)) :
    Service.ValidateOTP u userUUID otp requestID s =
      u.userRepo.UpdateOTPStatus uid otp requestID s1 := by
  simp [Service.ValidateOTP, h]

/-- The lookup of the server's repository, as a pair of result and state. -/
theorem serviceUser_lookup (γ : Type) (lookupFault : Option String) (fl : Faults)
    (nowFunc : Nat → Time) (gen : Nat → γ → (String × Option String) × γ)
    (w : Database × γ) (userUUID : String) :
    (serviceUser γ lookupFault fl nowFunc gen).userRepo.GetUserIDByUUID userUUID w =
      (((GetUserIDByUUID lookupFault w.1 userUUID).1,
        (GetUserIDByUUID lookupFault w.1 userUUID).2.map Sum.inl), w) := rfl

/-- C13 (no side effect when lookup or generation fails). For every repository and
generator: if `GetUserIDByUUID` returns an error, `GenerateOTP` returns the empty code with
exactly that error and the state is the one the lookup left (neither the generator nor
`StoreOTP` ran); if the lookup succeeds and the generator returns an error, `GenerateOTP`
returns the empty code with exactly that error and the state is the one the generator left
(`StoreOTP` did not run). For the server's own service the database, hence the ledger, is
in both cases the one before the call, and in the first case the generator's state is
untouched as well. -/
theorem generate_no_side_effect {σ ε : Type} (u : Service.User σ ε)
    (userUUID requestID : String) (s : σ) :
    (∀ (uid : Nat) (e : ε) (s1 : σ),
      u.userRepo.GetUserIDByUUID userUUID s = ((uid, some e), s1) →
      Service.GenerateOTP u userUUID requestID s = (("", some e), s1)) ∧
    (∀ (uid : Nat) (s1 : σ) (out : String) (e : ε) (s2 : σ),
      u.userRepo.GetUserIDByUUID userUUID s = ((uid, none), s1) →
      u.otpGenerator Service.otpLength s1 = ((out, some e), s2) →
      Service.GenerateOTP u userUUID requestID s = (("", some e), s2)) ∧
    (∀ (γ : Type) (lookupFault : Option String) (fl : Faults) (nowFunc : Nat → Time)
      (gen : Nat → γ → (String × Option String) × γ) (w : Database × γ),
      (∀ e, (GetUserIDByUUID lookupFault w.1 userUUID).2 = some e →
        Service.GenerateOTP (serviceUser γ lookupFault fl nowFunc gen) userUUID requestID w =
          (("", some (Sum.inl e)), w)) ∧
      (∀ e, (GetUserIDByUUID lookupFault w.1 userUUID).2 = none →
        (gen Service.otpLength w.2).1.2 = some e →
        Service.GenerateOTP (serviceUser γ lookupFault fl nowFunc gen) userUUID requestID w =
          (("", some (Sum.inr e)), (w.1, (gen Service.otpLength w.2).2)))) := by
  refine ⟨fun uid e s1 h => GenerateOTP_lookup_error u userUUID requestID s h,
    fun uid s1 out e s2 h hg => GenerateOTP_generator_error u userUUID requestID s h hg, ?_⟩
  intro γ lookupFault fl nowFunc gen w
  constructor
  · intro e he
    apply GenerateOTP_lookup_error
    rw [serviceUser_lookup, he]
    rfl
  · intro e hl he
    have h1 : (serviceUser γ lookupFault fl nowFunc gen).userRepo.GetUserIDByUUID userUUID w =
        (((GetUserIDByUUID lookupFault w.1 userUUID).1, none), w) := by
      rw [serviceUser_lookup, hl]
      rfl
    have h2 : (serviceUser γ lookupFault fl nowFunc gen).otpGenerator Service.otpLength w =
        (((gen Service.otpLength w.2).1.1, some (Sum.inr e)),
          (w.1, (gen Service.otpLength w.2).2)) := by
      show (((gen Service.otpLength w.2).1.1, (gen Service.otpLength w.2).1.2.map Sum.inr),
        (w.1, (gen Service.otpLength w.2).2)) = _
      rw [he]
      rfl
    exact GenerateOTP_generator_error _ userUUID requestID w h1 h2

/-- The service tests `ErrorGetUserIDByUUID` and `ErrorGeneratingOTP` on the sample
database: an unknown user gives "data not found" and the generator is not called (its call
counter stays 0); a failing generator gives its error, is called once, and the database is
as before. -/
theorem generate_no_side_effect_witness :
    Service.GenerateOTP
        (serviceUser Nat none noFaults (fun _ => Minute) (fakeGenerator ("xxxxx", none)))
        "fake-uuid" "fake-request-id" (sampleDatabase, 0) =
      (("", some (Sum.inl Error.ErrNotFound)), (sampleDatabase, 0)) ∧
    Service.GenerateOTP
        (serviceUser Nat none noFaults (fun _ => Minute)
          (fakeGenerator ("", some "fake error")))
        "uuid-1" "fake-request-id" (sampleDatabase, 0) =
      (("", some (Sum.inr "fake error")), (sampleDatabase, 1)) :=
  ⟨((generate_no_side_effect
      (serviceUser Nat none noFaults (fun _ => Minute) (fakeGenerator ("xxxxx", none)))
      "fake-uuid" "fake-request-id" (sampleDatabase, 0)).2.2 Nat none noFaults
      (fun _ => Minute) (fakeGenerator ("xxxxx", none)) (sampleDatabase, 0)).1
      Error.ErrNotFound (by decide),
    ((generate_no_side_effect
      (serviceUser Nat none noFaults (fun _ => Minute) (fakeGenerator ("", some "fake error")))
      "uuid-1" "fake-request-id" (sampleDatabase, 0)).2.2 Nat none noFaults
      (fun _ => Minute) (fakeGenerator ("", some "fake error")) (sampleDatabase, 0)).2
      "fake error" (by decide) rfl⟩

/-- C14 (the store result is propagated verbatim). For every repository and generator: when
the lookup resolves `uid` and the generator returns `otp`, `GenerateOTP` runs `StoreOTP`
once, on the state the generator left, with `uid`, `otp` and the caller's request id, and
the state after `GenerateOTP` is the state after that call; if `StoreOTP` returns an error
`e` (`ErrOTPExist` included) the result is the empty code with `e`, and if it returns `nil`
the result is `otp` with no error. -/
theorem generate_propagates_store {σ ε : Type} (u : Service.User σ ε)
    (userUUID requestID : String) (s : σ) (uid : Nat) (s1 : σ) (otp : String) (s2 : σ)
    (hlookup : u.userRepo.GetUserIDByUUID userUUID s = ((uid, none), s1))
    (hgen : u.otpGenerator Service.otpLength s1 = ((otp, none), s2)) :
    (Service.GenerateOTP u userUUID requestID s).2 =
        (u.userRepo.StoreOTP uid otp requestID s2).2 ∧
    (∀ (e : ε) (s3 : σ), u.userRepo.StoreOTP uid otp requestID s2 = (some e, s3) →
      Service.GenerateOTP u userUUID requestID s = (("", some e), s3)) ∧
    (∀ s3 : σ, u.userRepo.StoreOTP uid otp requestID s2 = (none, s3) →
      Service.GenerateOTP u userUUID requestID s = ((otp, none), s3)) := by
  have h := GenerateOTP_store u userUUID requestID s hlookup hgen
  refine ⟨by rw [h], ?_, ?_⟩
  · intro e s3 hs
    rw [h, hs]
  · intro s3 hs
    rw [h, hs]

/-- The service tests `ErrorStoringOTP` and `SuccessGenerateOTP` on the sample database: at
minute 1 the live sample code makes the store answer `ErrOTPExist`, which comes back
unchanged with the empty code; at minute 3 the generated code "xxxxx" is stored and
returned. -/
theorem generate_propagates_store_witness :
    Service.GenerateOTP
        (serviceUser Nat none noFaults (fun _ => Minute) (fakeGenerator ("xxxxx", none)))
        "uuid-1" "fake-request-id" (sampleDatabase, 0) =
      (("", some (Sum.inl Error.ErrOTPExist)), (sampleDatabase, 1)) ∧
    Service.GenerateOTP
        (serviceUser Nat none noFaults (fun _ => 3 * Minute) (fakeGenerator ("xxxxx", none)))
        "uuid-1" "fake-request-id" (sampleDatabase, 0) =
      (("xxxxx", none),
        ({ sampleDatabase with otps := [withStatus sampleOTP otpStatusExpired, sampleUsed,
            newOTP 3 1 "xxxxx" "fake-request-id" (8 * Minute)] }, 1)) :=
  ⟨(generate_propagates_store
      (serviceUser Nat none noFaults (fun _ => Minute) (fakeGenerator ("xxxxx", none)))
      "uuid-1" "fake-request-id" (sampleDatabase, 0) 1 (sampleDatabase, 0) "xxxxx"
      (sampleDatabase, 1) rfl rfl).2.1 (Sum.inl Error.ErrOTPExist) (sampleDatabase, 1)
      (by decide),
    (generate_propagates_store
      (serviceUser Nat none noFaults (fun _ => 3 * Minute) (fakeGenerator ("xxxxx", none)))
      "uuid-1" "fake-request-id" (sampleDatabase, 0) 1 (sampleDatabase, 0) "xxxxx"
      (sampleDatabase, 1) rfl rfl).2.2 _ (by decide)⟩

/-- C15 (`ValidateOTP` is the store's consume behind the identity lookup). For every
repository: if `GetUserIDByUUID` returns an error, `ValidateOTP` returns that error and the
state is the one the lookup left (`UpdateOTPStatus` did not run); otherwise its result and
final state are exactly those of one call `UpdateOTPStatus uid otp requestID`. For the
server's own service: a failed lookup leaves the database as it was, and otherwise the
error and the committed ledger are those of `repository.User.UpdateOTPStatus`, so the
service fails with `ErrInvalidOTP` or `ErrOTPExpired` exactly when the store does. -/
theorem validate_is_consume {σ ε : Type} (u : Service.User σ ε)
    (userUUID otp requestID : String) (s : σ) :
    (∀ (uid : Nat) (e : ε) (s1 : σ),
      u.userRepo.GetUserIDByUUID userUUID s = ((uid, some e), s1) →
      Service.ValidateOTP u userUUID otp requestID s = (some e, s1)) ∧
    (∀ (uid : Nat) (s1 : σ),
      u.userRepo.GetUserIDByUUID userUUID s = ((uid, none), s1) →
      Service.ValidateOTP u userUUID otp requestID s =
        u.userRepo.UpdateOTPStatus uid otp requestID s1) ∧
    (∀ (γ : Type) (lookupFault : Option String) (fl : Faults) (nowFunc : Nat → Time)
      (gen : Nat → γ → (String × Option String) × γ) (w : Database × γ),
      (∀ e, (GetUserIDByUUID lookupFault w.1 userUUID).2 = some e →
        Service.ValidateOTP (serviceUser γ lookupFault fl nowFunc gen) userUUID otp requestID w =
          (some (Sum.inl e), w)) ∧
      ((GetUserIDByUUID lookupFault w.1 userUUID).2 = none →
        (Service.ValidateOTP (serviceUser γ lookupFault fl nowFunc gen) userUUID otp
            requestID w).1 =
          (UpdateOTPStatus fl nowFunc w.1.otps (GetUserIDByUUID lookupFault w.1 userUUID).1
            otp requestID).1.map Sum.inl ∧
        (Service.ValidateOTP (serviceUser γ lookupFault fl nowFunc gen) userUUID otp
            requestID w).2.1.otps =
          (UpdateOTPStatus fl nowFunc w.1.otps (GetUserIDByUUID lookupFault w.1 userUUID).1
            otp requestID).2 ∧
        ((Service.ValidateOTP (serviceUser γ lookupFault fl nowFunc gen) userUUID otp
            requestID w).1 = some (Sum.inl Error.ErrInvalidOTP) ↔
          (UpdateOTPStatus fl nowFunc w.1.otps (GetUserIDByUUID lookupFault w.1 userUUID).1
            otp requestID).1 = some Error.ErrInvalidOTP) ∧
        ((Service.ValidateOTP (serviceUser γ lookupFault fl nowFunc gen) userUUID otp
            requestID w).1 = some (Sum.inl Error.ErrOTPExpired) ↔
          (UpdateOTPStatus fl nowFunc w.1.otps (GetUserIDByUUID lookupFault w.1 userUUID).1
            otp requestID).1 = some Error.ErrOTPExpired))) := by
  refine ⟨fun uid e s1 h => ValidateOTP_lookup_error u userUUID otp requestID s h,
    fun uid s1 h => ValidateOTP_lookup_ok u userUUID otp requestID s h, ?_⟩
  intro γ lookupFault fl nowFunc gen w
  constructor
  · intro e he
    apply ValidateOTP_lookup_error
    rw [serviceUser_lookup, he]
    rfl
  · intro hl
    have h1 : (serviceUser γ lookupFault fl nowFunc gen).userRepo.GetUserIDByUUID userUUID w =
        (((GetUserIDByUUID lookupFault w.1 userUUID).1, none), w) := by
      rw [serviceUser_lookup, hl]
      rfl
    rw [ValidateOTP_lookup_ok _ userUUID otp requestID w h1]
    refine ⟨rfl, rfl, ?_, ?_⟩
    · show (UpdateOTPStatus fl nowFunc w.1.otps (GetUserIDByUUID lookupFault w.1 userUUID).1
        otp requestID).1.map Sum.inl = _ ↔ _
      cases (UpdateOTPStatus fl nowFunc w.1.otps (GetUserIDByUUID lookupFault w.1 userUUID).1
        otp requestID).1 <;> simp
    · show (UpdateOTPStatus fl nowFunc w.1.otps (GetUserIDByUUID lookupFault w.1 userUUID).1
        otp requestID).1.map Sum.inl = _ ↔ _
      cases (UpdateOTPStatus fl nowFunc w.1.otps (GetUserIDByUUID lookupFault w.1 userUUID).1
        otp requestID).1 <;> simp

/-- The service tests of `ValidateOTP` on the sample database at minute 1: an unknown user
gets "data not found" with the database untouched, and the right code of user 1 is
consumed. -/
theorem validate_is_consume_witness :
    Service.ValidateOTP
        (serviceUser Nat none noFaults (fun _ => Minute) (fakeGenerator ("xxxxx", none)))
        "fake-uuid" "12345" "fake-request-id" (sampleDatabase, 0) =
      (some (Sum.inl Error.ErrNotFound), (sampleDatabase, 0)) ∧
    (Service.ValidateOTP
        (serviceUser Nat none noFaults (fun _ => Minute) (fakeGenerator ("xxxxx", none)))
        "uuid-1" "12345" "fake-request-id" (sampleDatabase, 0)).2.1.otps =
      [withStatus sampleOTP otpStatusUsed, sampleUsed] :=
  ⟨((validate_is_consume
      (serviceUser Nat none noFaults (fun _ => Minute) (fakeGenerator ("xxxxx", none)))
      "fake-uuid" "12345" "fake-request-id" (sampleDatabase, 0)).2.2 Nat none noFaults
      (fun _ => Minute) (fakeGenerator ("xxxxx", none)) (sampleDatabase, 0)).1
      Error.ErrNotFound (by decide),
    (((validate_is_consume
      (serviceUser Nat none noFaults (fun _ => Minute) (fakeGenerator ("xxxxx", none)))
      "uuid-1" "12345" "fake-request-id" (sampleDatabase, 0)).2.2 Nat none noFaults
      (fun _ => Minute) (fakeGenerator ("xxxxx", none)) (sampleDatabase, 0)).2
      (by decide)).2.1⟩

/-! ### Ledger mutations of one issue -/

theorem zip_countP_map_append (f : OTP → OTP) (extra : Ledger) (l : Ledger) :
    (List.zip l (l.map f ++ extra)).countP (fun p => decide (p.1 ≠ p.2)) =
      l.countP (fun x => decide (x ≠ f x)) := by
  induction l with
  | nil => simp
  | cons x xs ih =>
    simp only [List.map_cons, List.cons_append, List.zip_cons_cons, List.countP_cons, ih]

theorem mutationCount_self (db : Ledger) : mutationCount db db = 0 := by
  unfold mutationCount
  have h := zip_countP_map_append id [] db
  simp only [List.map_id, List.append_nil] at h
  rw [h]
  simp

theorem mutationCount_append_one (db : Ledger) (n : OTP) : mutationCount db (db ++ [n]) = 1 := by
  unfold mutationCount
  have h := zip_countP_map_append id [n] db
  simp only [List.map_id] at h
  rw [h]
  simp

theorem mutationCount_mark_append {db : Ledger} (hwf : WellFormed db) {r : OTP} (hr : r ∈ db)
    {s : Nat} (hs : r.status ≠ s) (n : OTP) :
    mutationCount db (markStatus db r s ++ [n]) = 2 := by
  unfold mutationCount markStatus
  rw [zip_countP_map_append]
  have hnd : db.Nodup := List.Nodup.of_map _ hwf.2
  have hcount : db.countP (fun x => decide (x ≠ if x = r then withStatus x s else x)) =
      db.count r := by
    rw [List.count_eq_countP]
    apply List.countP_congr
    intro x _
    by_cases hx : x = r
    · subst hx
      have : x ≠ withStatus x s := by
        intro h
        have h2 : x.status = (withStatus x s).status := by rw [← h]
        exact hs h2
      simp [this]
    · have hx2 : ¬ (x == r) = true := by simpa using hx
      simp [hx, hx2]
  rw [hcount, List.count_eq_one_of_mem hnd hr]
  simp

/-- C17 as stated fails. On the sample database the store step is reached (user "uuid-1" is
known and the generator returns a code), yet an issue at minute 1, rejected with
`ErrOTPExist`, makes no ledger mutation, and an issue at minute 3 makes two: the stale
sample code is set to Expired and the new record is inserted. -/
theorem one_mutation_per_issue_counterexample :
    (GetUserIDByUUID none sampleDatabase "uuid-1").2 = none ∧
    (fakeGenerator ("xxxxx", none) Service.otpLength 0).1.2 = none ∧
    ¬ mutationCount sampleDatabase.otps
        (Service.GenerateOTP
          (serviceUser Nat none noFaults (fun _ => Minute) (fakeGenerator ("xxxxx", none)))
          "uuid-1" "fake-request-id" (sampleDatabase, 0)).2.1.otps = 1 ∧
    mutationCount sampleDatabase.otps
        (Service.GenerateOTP
          (serviceUser Nat none noFaults (fun _ => Minute) (fakeGenerator ("xxxxx", none)))
          "uuid-1" "fake-request-id" (sampleDatabase, 0)).2.1.otps = 0 ∧
    mutationCount sampleDatabase.otps
        (Service.GenerateOTP
          (serviceUser Nat none noFaults (fun _ => 3 * Minute)
            (fakeGenerator ("xxxxx", none)))
          "uuid-1" "fake-request-id" (sampleDatabase, 0)).2.1.otps = 2 := by
  refine ⟨by decide, by decide, by decide, by decide, by decide⟩

theorem scannedID_of_no_unused {db : Ledger} {u : Nat}
    (hno : ∀ r ∈ db, r.user_id = u → r.status ≠ otpStatusUnused) : scannedID db u = 0 := by
  simp [scannedID, scannedRow, selectByUserStatus, find?_unused_none_of_forall hno, zeroTime]

theorem StoreOTP_mutations_error (fl : Faults) (nowFunc : Nat → Time) (db : Ledger)
    (userID : Nat) (otp requestID : String)
    (h : (StoreOTP fl nowFunc db userID otp requestID).1 ≠ none) :
    mutationCount db (StoreOTP fl nowFunc db userID otp requestID).2 = 0 := by
  rw [StoreOTP_error_unchanged fl nowFunc db userID otp requestID h]
  exact mutationCount_self db

theorem StoreOTP_mutations_first (fl : Faults) (nowFunc : Nat → Time) {db : Ledger}
    (hwf : WellFormed db) {userID : Nat} (otp requestID : String)
    (h : (StoreOTP fl nowFunc db userID otp requestID).1 = none)
    (hno : ∀ r ∈ db, r.user_id = userID → r.status ≠ otpStatusUnused) :
    mutationCount db (StoreOTP fl nowFunc db userID otp requestID).2 = 1 := by
  rcases StoreOTP_cases fl nowFunc db userID otp requestID with ⟨hne, _⟩ | ⟨_, _, h2⟩
  · exact absurd h hne
  · rw [h2, insertOTP_eq, scannedID_of_no_unused hno, updateStatus_zero hwf]
    exact mutationCount_append_one db _

theorem StoreOTP_mutations_stale (fl : Faults) (nowFunc : Nat → Time) {db : Ledger}
    (hwf : WellFormed db) (hsu : SingleUnused db) {userID : Nat} (otp requestID : String)
    (h : (StoreOTP fl nowFunc db userID otp requestID).1 = none)
    (hex : ∃ r ∈ db, r.user_id = userID ∧ r.status = otpStatusUnused) :
    mutationCount db (StoreOTP fl nowFunc db userID otp requestID).2 = 2 := by
  rcases hex with ⟨r, hr, hu, hst⟩
  rcases StoreOTP_cases fl nowFunc db userID otp requestID with ⟨hne, _⟩ | ⟨_, _, h2⟩
  · exact absurd h hne
  · rw [h2, insertOTP_eq, scannedID_of_mem hsu hr hu hst, updateStatus_eq_markStatus hwf hr]
    apply mutationCount_mark_append hwf hr
    rw [hst]
    decide

/-- `GenerateOTP` of the server's service once lookup and generation have succeeded. -/
theorem serviceUser_GenerateOTP_reached (γ : Type) (lookupFault : Option String)
    (fl : Faults) (nowFunc : Nat → Time) (gen : Nat → γ → (String × Option String) × γ)
    (w : Database × γ) (userUUID requestID : String)
    (hlookup : (GetUserIDByUUID lookupFault w.1 userUUID).2 = none)
    (hgen : (gen Service.otpLength w.2).1.2 = none) :
    Service.GenerateOTP (serviceUser γ lookupFault fl nowFunc gen) userUUID requestID w =
      (match (StoreOTP fl nowFunc w.1.otps (GetUserIDByUUID lookupFault w.1 userUUID).1
          (gen Service.otpLength w.2).1.1 requestID).1.map Sum.inl with
        | some e => ("", some e)
        | none => ((gen Service.otpLength w.2).1.1, none),
        ({ w.1 with otps := (StoreOTP fl nowFunc w.1.otps
            (GetUserIDByUUID lookupFault w.1 userUUID).1
            (gen Service.otpLength w.2).1.1 requestID).2 }, (gen Service.otpLength w.2).2)) := by
  have h1 : (serviceUser γ lookupFault fl nowFunc gen).userRepo.GetUserIDByUUID userUUID w =
      (((GetUserIDByUUID lookupFault w.1 userUUID).1, none), w) := by
    rw [serviceUser_lookup, hlookup]
    rfl
  have h2 : (serviceUser γ lookupFault fl nowFunc gen).otpGenerator Service.otpLength w =
      (((gen Service.otpLength w.2).1.1, none), (w.1, (gen Service.otpLength w.2).2)) := by
    show (((gen Service.otpLength w.2).1.1, (gen Service.otpLength w.2).1.2.map Sum.inr),
      (w.1, (gen Service.otpLength w.2).2)) = _
    rw [hgen]
    rfl
  rw [GenerateOTP_store _ userUUID requestID w h1 h2]
  simp only [serviceUser, repositoryUser]
  generalize (StoreOTP fl nowFunc w.1.otps (GetUserIDByUUID lookupFault w.1 userUUID).1
    (gen Service.otpLength w.2).1.1 requestID).1 = err
  cases err <;> rfl

/-- C17, amended. Whenever `GenerateOTP` of the server's service reaches the store step
(lookup and generation succeeded), the ledger after the call is the one committed by one
`StoreOTP` transaction and `GenerateOTP` fails exactly when that transaction does. If it
fails (with `ErrOTPExist` or a store error) there is no ledger mutation. If it succeeds, on
a ledger with the key constraint and at most one Unused record per user, there is exactly one
mutation (the inserted record) when the user had no Unused record, and exactly two (the
stale record set to Expired, and the inserted record) when the user had one. -/
theorem generate_ledger_mutations (γ : Type) (lookupFault : Option String) (fl : Faults)
    (nowFunc : Nat → Time) (gen : Nat → γ → (String × Option String) × γ)
    (w : Database × γ) (userUUID requestID : String)
    (hlookup : (GetUserIDByUUID lookupFault w.1 userUUID).2 = none)
    (hgen : (gen Service.otpLength w.2).1.2 = none) :
    (Service.GenerateOTP (serviceUser γ lookupFault fl nowFunc gen) userUUID requestID
        w).2.1.otps =
      (StoreOTP fl nowFunc w.1.otps (GetUserIDByUUID lookupFault w.1 userUUID).1
        (gen Service.otpLength w.2).1.1 requestID).2 ∧
    ((Service.GenerateOTP (serviceUser γ lookupFault fl nowFunc gen) userUUID requestID
        w).1.2 = none ↔
      (StoreOTP fl nowFunc w.1.otps (GetUserIDByUUID lookupFault w.1 userUUID).1
        (gen Service.otpLength w.2).1.1 requestID).1 = none) ∧
    ((Service.GenerateOTP (serviceUser γ lookupFault fl nowFunc gen) userUUID requestID
        w).1.2 ≠ none →
      mutationCount w.1.otps
        (Service.GenerateOTP (serviceUser γ lookupFault fl nowFunc gen) userUUID requestID
          w).2.1.otps = 0) ∧
    ((Service.GenerateOTP (serviceUser γ lookupFault fl nowFunc gen) userUUID requestID
        w).1.2 = none → WellFormed w.1.otps → SingleUnused w.1.otps →
      ((∀ x ∈ w.1.otps, x.user_id = (GetUserIDByUUID lookupFault w.1 userUUID).1 →
          x.status ≠ otpStatusUnused) →
        mutationCount w.1.otps
          (Service.GenerateOTP (serviceUser γ lookupFault fl nowFunc gen) userUUID requestID
            w).2.1.otps = 1) ∧
      ((∃ x ∈ w.1.otps, x.user_id = (GetUserIDByUUID lookupFault w.1 userUUID).1 ∧
          x.status = otpStatusUnused) →
        mutationCount w.1.otps
          (Service.GenerateOTP (serviceUser γ lookupFault fl nowFunc gen) userUUID requestID
            w).2.1.otps = 2)) := by
  have hres := serviceUser_GenerateOTP_reached γ lookupFault fl nowFunc gen w userUUID
    requestID hlookup hgen
  have hiff : (Service.GenerateOTP (serviceUser γ lookupFault fl nowFunc gen) userUUID
      requestID w).1.2 = none ↔
      (StoreOTP fl nowFunc w.1.otps (GetUserIDByUUID lookupFault w.1 userUUID).1
        (gen Service.otpLength w.2).1.1 requestID).1 = none := by
    rw [hres]
    cases (StoreOTP fl nowFunc w.1.otps (GetUserIDByUUID lookupFault w.1 userUUID).1
      (gen Service.otpLength w.2).1.1 requestID).1 <;> simp
  have hled : (Service.GenerateOTP (serviceUser γ lookupFault fl nowFunc gen) userUUID
      requestID w).2.1.otps =
      (StoreOTP fl nowFunc w.1.otps (GetUserIDByUUID lookupFault w.1 userUUID).1
        (gen Service.otpLength w.2).1.1 requestID).2 := by
    rw [hres]
  refine ⟨hled, hiff, ?_, ?_⟩
  · intro hne
    rw [hled]
    exact StoreOTP_mutations_error _ _ _ _ _ _ (fun h => hne (hiff.2 h))
  · intro hok hwf hsu
    rw [hled]
    exact ⟨fun hno => StoreOTP_mutations_first fl nowFunc hwf _ _ (hiff.1 hok) hno,
      fun hex => StoreOTP_mutations_stale fl nowFunc hwf hsu _ _ (hiff.1 hok) hex⟩

/-- On the sample database with codes generated as "xxxxx": an issue for user 2 (who holds
only a Used record) at minute 1 makes one mutation, and the rejected issue for user 1 at
minute 1 makes none. -/
theorem generate_ledger_mutations_witness :
    mutationCount sampleDatabase.otps
        (Service.GenerateOTP
          (serviceUser Nat none noFaults (fun _ => Minute) (fakeGenerator ("xxxxx", none)))
          "uuid-2" "fake-request-id" (sampleDatabase, 0)).2.1.otps = 1 ∧
    mutationCount sampleDatabase.otps
        (Service.GenerateOTP
          (serviceUser Nat none noFaults (fun _ => Minute) (fakeGenerator ("xxxxx", none)))
          "uuid-1" "fake-request-id" (sampleDatabase, 0)).2.1.otps = 0 :=
  ⟨((generate_ledger_mutations Nat none noFaults (fun _ => Minute)
      (fakeGenerator ("xxxxx", none)) (sampleDatabase, 0) "uuid-2" "fake-request-id"
      (by decide) rfl).2.2.2 (by decide) (by decide) (singleUnused_of_check (by decide))).1
      (by decide),
    (generate_ledger_mutations Nat none noFaults (fun _ => Minute)
      (fakeGenerator ("xxxxx", none)) (sampleDatabase, 0) "uuid-1" "fake-request-id"
      (by decide) rfl).2.2.1 (by decide)⟩

/-! ### The REST handlers -/

theorem RequestOTP_service_error {σ ε : Type} (userSvc : Rest.UserService σ ε)
    (otpReq : Rest.OTPRequest) (xRequestID : String) (s : σ) {out : String} {e : ε} {s1 : σ}
    (h : userSvc.GenerateOTP otpReq.UserID xRequestID s = ((out, some e), s1)) :
    Rest.RequestOTP userSvc (some otpReq) xRequestID s =
      (Rest.Reply.HTTPError 500 "Internal Server Error", s1) := by
  simp [Rest.RequestOTP, h, Rest.StatusInternalServerError]

theorem RequestOTP_service_ok {σ ε : Type} (userSvc : Rest.UserService σ ε)
    (otpReq : Rest.OTPRequest) (xRequestID : String) (s : σ) {otp : String} {s1 : σ}
    (h : userSvc.GenerateOTP otpReq.UserID xRequestID s = ((otp, none), s1)) :
    Rest.RequestOTP userSvc (some otpReq) xRequestID s =
      (Rest.Reply.JSON 200 { UserID := otpReq.UserID, OTP := otp }, s1) := by
  simp [Rest.RequestOTP, h, Rest.StatusOK]

theorem ValidateOTP_service_error {σ ε : Type} (userSvc : Rest.UserService σ ε)
    (req : Rest.ValidateOTPRequest) (s : σ) {e : ε} {s1 : σ}
    (h : userSvc.ValidateOTP req.UserID req.OTP req.ReqID s = (some e, s1)) :
    Rest.ValidateOTP userSvc (some req) s =
      (Rest.Reply.HTTPError 500 "Internal Server Error", s1) := by
  simp [Rest.ValidateOTP, h, Rest.StatusInternalServerError]

/-- C18 as stated fails. On the sample database at minute 1 the service fails with
`ErrNotFound` for an unknown user and with `ErrOTPExist` for user "uuid-1", and with the
generator's error when the generator fails; in each case `RequestOTP` answers 500, which is
not a client error; `ValidateOTP` answers 500 for the unknown user as well. -/
theorem error_classes_counterexample :
    ((sampleService (fun _ => Minute)).GenerateOTP "fake-uuid" "req-3" (sampleDatabase, 0)).1.2 =
        some (Sum.inl Error.ErrNotFound) ∧
    ¬ Rest.isClientError (Rest.RequestOTP (sampleService (fun _ => Minute))
        (some { UserID := "fake-uuid" }) "req-3" (sampleDatabase, 0)).1.code ∧
    ((sampleService (fun _ => Minute)).GenerateOTP "uuid-1" "req-3" (sampleDatabase, 0)).1.2 =
        some (Sum.inl Error.ErrOTPExist) ∧
    ¬ Rest.isClientError (Rest.RequestOTP (sampleService (fun _ => Minute))
        (some { UserID := "uuid-1" }) "req-3" (sampleDatabase, 0)).1.code ∧
    ((userService (serviceUser Nat none noFaults (fun _ => Minute)
        (fakeGenerator ("", some "fake error")))).GenerateOTP "uuid-1" "req-3"
        (sampleDatabase, 0)).1.2 = some (Sum.inr "fake error") ∧
    ¬ Rest.isClientError (Rest.RequestOTP
        (userService (serviceUser Nat none noFaults (fun _ => Minute)
          (fakeGenerator ("", some "fake error"))))
        (some { UserID := "uuid-1" }) "req-3" (sampleDatabase, 0)).1.code ∧
    ¬ Rest.isClientError (Rest.ValidateOTP (sampleService (fun _ => Minute))
        (some { UserID := "fake-uuid", OTP := "12345", ReqID := "req-3" })
        (sampleDatabase, 0)).1.code := by
  refine ⟨by decide, by decide, by decide, by decide, by decide, by decide, by decide⟩

/-- C18, amended. For every issue request whose body binds, whichever error the service
fails with (`ErrNotFound`, `ErrOTPExist`, a generator error or a store error alike),
`RequestOTP` answers HTTP 500 "Internal Server Error", a server-error outcome; the only
client-error outcome is HTTP 400 for a body that does not bind. `ValidateOTP` maps errors
the same way. -/
theorem error_classes_all_server_error {σ ε : Type} (userSvc : Rest.UserService σ ε)
    (otpReq : Rest.OTPRequest) (xRequestID : String) (s : σ) (e : ε)
    (hfail : (userSvc.GenerateOTP otpReq.UserID xRequestID s).1.2 = some e) :
    (Rest.RequestOTP userSvc (some otpReq) xRequestID s).1 =
        Rest.Reply.HTTPError 500 "Internal Server Error" ∧
    Rest.isServerError (Rest.RequestOTP userSvc (some otpReq) xRequestID s).1.code ∧
    (Rest.RequestOTP userSvc none xRequestID s).1 = Rest.Reply.HTTPError 400 "Bad Request" ∧
    Rest.isClientError (Rest.RequestOTP userSvc none xRequestID s).1.code ∧
    (∀ (req : Rest.ValidateOTPRequest) (e2 : ε),
      (userSvc.ValidateOTP req.UserID req.OTP req.ReqID s).1 = some e2 →
      (Rest.ValidateOTP userSvc (some req) s).1 =
          Rest.Reply.HTTPError 500 "Internal Server Error" ∧
        Rest.isServerError (Rest.ValidateOTP userSvc (some req) s).1.code) ∧
    (Rest.ValidateOTP userSvc none s).1 = Rest.Reply.HTTPError 400 "Bad Request" := by
  have h1 : (Rest.RequestOTP userSvc (some otpReq) xRequestID s).1 =
      Rest.Reply.HTTPError 500 "Internal Server Error" := by
    rcases hg : userSvc.GenerateOTP otpReq.UserID xRequestID s with ⟨⟨out, err⟩, s1⟩
    rw [hg] at hfail
    simp only at hfail
    subst hfail
    rw [RequestOTP_service_error userSvc otpReq xRequestID s hg]
  have h0 : (Rest.RequestOTP userSvc none xRequestID s).1 =
      Rest.Reply.HTTPError 400 "Bad Request" := rfl
  refine ⟨h1, ?_, h0, ?_, ?_, rfl⟩
  · rw [h1]
    decide
  · rw [h0]
    decide
  · intro req e2 hv
    have h2 : (Rest.ValidateOTP userSvc (some req) s).1 =
        Rest.Reply.HTTPError 500 "Internal Server Error" := by
      rcases hg : userSvc.ValidateOTP req.UserID req.OTP req.ReqID s with ⟨err, s1⟩
      rw [hg] at hv
      simp only at hv
      subst hv
      rw [ValidateOTP_service_error userSvc req s hg]
    refine ⟨h2, ?_⟩
    rw [h2]
    decide

/-- The handler test `ErrorGenerateOTP`, here with the unknown user of the sample database:
the service's "data not found" becomes HTTP 500 "Internal Server Error". -/
theorem error_classes_all_server_error_witness :
    (Rest.RequestOTP (sampleService (fun _ => Minute)) (some { UserID := "fake-uuid" })
        "fake-request-id" (sampleDatabase, 0)).1 =
      Rest.Reply.HTTPError 500 "Internal Server Error" :=
  (error_classes_all_server_error (sampleService (fun _ => Minute)) { UserID := "fake-uuid" }
    "fake-request-id" (sampleDatabase, 0) (Sum.inl Error.ErrNotFound) (by decide)).1

/-- C19 (`RequestOTP` as its tests state it). For every service and request: if the body
does not bind, the handler answers HTTP 400 "Bad Request" and the state is untouched (the
service is not called); otherwise it calls `GenerateOTP` with the body's `user_id` and the
`X-Request-Id` response header value, answers HTTP 500 "Internal Server Error" for every
service error, and on success answers HTTP 200 with the request's `user_id` and exactly the
code the service returned. -/
theorem request_otp_response {σ ε : Type} (userSvc : Rest.UserService σ ε)
    (xRequestID : String) (s : σ) :
    Rest.RequestOTP userSvc none xRequestID s =
        (Rest.Reply.HTTPError 400 "Bad Request", s) ∧
    (∀ (otpReq : Rest.OTPRequest) (out : String) (e : ε) (s1 : σ),
      userSvc.GenerateOTP otpReq.UserID xRequestID s = ((out, some e), s1) →
      Rest.RequestOTP userSvc (some otpReq) xRequestID s =
        (Rest.Reply.HTTPError 500 "Internal Server Error", s1)) ∧
    (∀ (otpReq : Rest.OTPRequest) (otp : String) (s1 : σ),
      userSvc.GenerateOTP otpReq.UserID xRequestID s = ((otp, none), s1) →
      Rest.RequestOTP userSvc (some otpReq) xRequestID s =
        (Rest.Reply.JSON 200 { UserID := otpReq.UserID, OTP := otp }, s1)) :=
  ⟨rfl,
    fun otpReq _ _ _ h => RequestOTP_service_error userSvc otpReq xRequestID s h,
    fun otpReq _ _ h => RequestOTP_service_ok userSvc otpReq xRequestID s h⟩

/-- The handler tests `ErrorGenerateOTP` and `SuccessGenerateOTP` on the sample database:
the rejected issue at minute 1 gives HTTP 500, and the issue at minute 3 gives HTTP 200
with the user id of the request and the generated code. -/
theorem request_otp_response_witness :
    (Rest.RequestOTP (sampleService (fun _ => Minute)) (some { UserID := "uuid-1" })
        "fake-request-id" (sampleDatabase, 0)).1 =
      Rest.Reply.HTTPError 500 "Internal Server Error" ∧
    (Rest.RequestOTP (sampleService (fun _ => 3 * Minute)) (some { UserID := "uuid-1" })
        "fake-request-id" (sampleDatabase, 0)).1 =
      Rest.Reply.JSON 200 { UserID := "uuid-1", OTP := "xxxxx" } :=
  ⟨congrArg Prod.fst
      ((request_otp_response (sampleService (fun _ => Minute)) "fake-request-id"
        (sampleDatabase, 0)).2.1 { UserID := "uuid-1" } ""
        (Sum.inl Error.ErrOTPExist) (sampleDatabase, 1) (by decide)),
    congrArg Prod.fst
      ((request_otp_response (sampleService (fun _ => 3 * Minute)) "fake-request-id"
        (sampleDatabase, 0)).2.2 { UserID := "uuid-1" } "xxxxx"
        ({ sampleDatabase with otps := [withStatus sampleOTP otpStatusExpired, sampleUsed,
            newOTP 3 1 "xxxxx" "fake-request-id" (8 * Minute)] }, 1) (by decide))⟩

/-! ### The random digit generator -/

theorem randomNumberMaxByte_eq : randomNumberMaxByte = 249 := by decide

theorem charset_getD (rb : Nat) :
    randomNumberCharset.data.getD (rb % randomNumberCharsetLen) (Char.ofNat 0) =
      digitChar (rb % 10) := by
  have h : rb % 10 < 10 := Nat.mod_lt _ (by decide)
  show randomNumberCharset.data.getD (rb % 10) (Char.ofNat 0) = digitChar (rb % 10)
  generalize rb % 10 = d at h
  interval_cases d <;> rfl

theorem digitChar_isDigit (d : Nat) (h : d < 10) : '0' ≤ digitChar d ∧ digitChar d ≤ '9' := by
  interval_cases d <;> decide

theorem set_append_cons (pre : List Char) (z : Char) (zs : List Char) (c : Char) :
    (pre ++ z :: zs).set pre.length c = (pre ++ [c]) ++ zs := by
  induction pre with
  | nil => rfl
  | cons x xs ih =>
    simp only [List.cons_append, List.length_cons, List.set_cons_succ, ih]

theorem acceptedBytes_cons_skip {rb : Nat} (h : randomNumberMaxByte < rb) (rest : List Nat) :
    acceptedBytes (rb :: rest) = acceptedBytes rest := by
  rw [randomNumberMaxByte_eq] at h
  unfold acceptedBytes
  rw [List.filter_cons_of_neg]
  simp only [decide_eq_true_eq]
  omega

theorem acceptedBytes_cons_keep {rb : Nat} (h : ¬ randomNumberMaxByte < rb) (rest : List Nat) :
    acceptedBytes (rb :: rest) = rb :: acceptedBytes rest := by
  rw [randomNumberMaxByte_eq] at h
  unfold acceptedBytes
  rw [List.filter_cons_of_pos]
  simp only [decide_eq_true_eq]
  omega

theorem acceptedBytes_take_drop (stream : List Nat) (n : Nat) :
    acceptedBytes stream = acceptedBytes (stream.take n) ++ acceptedBytes (stream.drop n) := by
  unfold acceptedBytes
  rw [← List.filter_append, List.take_append_drop]

/-- What the inner loop does to a buffer whose first `pre.length` cells hold the digits
written so far: it either returns the buffer completed by the next accepted bytes, or ends
with all accepted bytes of `r` written and the counter advanced by their number. -/
theorem randomNumbersRange_spec (length : Nat) (hlen : length ≤ 255) :
    ∀ (r : List Nat) (pre zs : List Char), pre.length < length →
      pre.length + zs.length = length →
      match randomNumbersRange length r (pre ++ zs) pre.length with
      | Sum.inr s =>
        s = String.mk (pre ++ ((acceptedBytes r).map (fun rb => digitChar (rb % 10))).take
            (length - pre.length)) ∧
          length ≤ pre.length + (acceptedBytes r).length
      | Sum.inl (b2, i2) =>
        ∃ zs2, b2 = (pre ++ (acceptedBytes r).map (fun rb => digitChar (rb % 10))) ++ zs2 ∧
          i2 = pre.length + (acceptedBytes r).length ∧ i2 < length ∧
          i2 + zs2.length = length := by
  intro r
  induction r with
  | nil =>
    intro pre zs hpre hsum
    simp only [randomNumbersRange]
    exact ⟨zs, by simp [acceptedBytes], by simp [acceptedBytes], by simpa [acceptedBytes] using hpre,
      by simpa [acceptedBytes] using hsum⟩
  | cons rb rest ih =>
    intro pre zs hpre hsum
    by_cases hskip : randomNumberMaxByte < rb
    · simp only [randomNumbersRange, if_pos hskip]
      rw [acceptedBytes_cons_skip hskip]
      exact ih pre zs hpre hsum
    · simp only [randomNumbersRange, if_neg hskip]
      rw [acceptedBytes_cons_keep hskip, charset_getD]
      have hmod : (pre.length + 1) % 256 = pre.length + 1 := Nat.mod_eq_of_lt (by omega)
      rw [hmod]
      cases zs with
      | nil => simp at hsum; omega
      | cons z zs1 =>
        rw [set_append_cons]
        simp only [List.length_cons] at hsum
        by_cases hfull : pre.length + 1 = length
        · rw [if_pos hfull]
          have hk : length - pre.length = 1 := by omega
          refine ⟨?_, by simp only [List.length_cons]; omega⟩
          have hz : zs1 = [] := List.length_eq_zero.1 (by omega)
          rw [hk, hz]
          simp
        · rw [if_neg hfull]
          have hpre2 : (pre ++ [digitChar (rb % 10)]).length < length := by
            simp only [List.length_append, List.length_singleton]; omega
          have hsum2 : (pre ++ [digitChar (rb % 10)]).length + zs1.length = length := by
            simp only [List.length_append, List.length_singleton]; omega
          have h := ih (pre ++ [digitChar (rb % 10)]) zs1 hpre2 hsum2
          have hl : (pre ++ [digitChar (rb % 10)]).length = pre.length + 1 := by simp
          rw [hl] at h
          rcases hres : randomNumbersRange length rest (pre ++ [digitChar (rb % 10)] ++ zs1)
            (pre.length + 1) with ⟨b2, i2⟩ | s
          · rw [hres] at h
            rcases h with ⟨zs2, hb, hi, hlt, hs⟩
            refine ⟨zs2, ?_, ?_, hlt, hs⟩
            · rw [hb]; simp
            · rw [hi]; simp only [List.length_cons]; omega
          · rw [hres] at h
            rcases h with ⟨hs, hle⟩
            refine ⟨?_, by simp only [List.length_cons]; omega⟩
            rw [hs]
            have hk : length - pre.length = (length - (pre.length + 1)) + 1 := by omega
            rw [hk]
            simp

/-- What the outer loop returns when it returns a string. -/
theorem randomNumbersLoop_spec (length size : Nat) (hlen : length ≤ 255) :
    ∀ (fuel : Nat) (stream : List Nat) (pre zs : List Char) (s : String),
      pre.length < length → pre.length + zs.length = length →
      randomNumbersLoop length size fuel stream (pre ++ zs) pre.length = some (s, none) →
      s = String.mk (pre ++ ((acceptedBytes stream).map (fun rb => digitChar (rb % 10))).take
          (length - pre.length)) ∧
        length ≤ pre.length + (acceptedBytes stream).length := by
  intro fuel
  induction fuel with
  | zero =>
    intro stream pre zs s _ _ h
    simp [randomNumbersLoop] at h
  | succ fuel ih =>
    intro stream pre zs s hpre hsum h
    unfold randomNumbersLoop at h
    by_cases hsize : size ≤ stream.length
    · simp only [readFull, if_pos hsize] at h
      have hspec := randomNumbersRange_spec length hlen (stream.take size) pre zs hpre hsum
      have hsplit := acceptedBytes_take_drop stream size
      rcases hres : randomNumbersRange length (stream.take size) (pre ++ zs) pre.length with
        ⟨b2, i2⟩ | s2
      · rw [hres] at h hspec
        rcases hspec with ⟨zs2, hb, hi, hlt, hs⟩
        simp only at h
        have hl : (pre ++ (acceptedBytes (stream.take size)).map
            (fun rb => digitChar (rb % 10))).length =
            pre.length + (acceptedBytes (stream.take size)).length := by simp
        rw [hb, hi, ← hl] at h
        have h2 := ih (stream.drop size) _ zs2 s (by rw [hl]; omega) (by rw [hl]; omega) h
        rw [hl] at h2
        refine ⟨?_, by rw [hsplit, List.length_append]; omega⟩
        have hA : ((acceptedBytes (stream.take size)).map
            (fun rb => digitChar (rb % 10))).length =
            (acceptedBytes (stream.take size)).length := List.length_map _ _
        have hk : length - pre.length - (acceptedBytes (stream.take size)).length =
            length - (pre.length + (acceptedBytes (stream.take size)).length) := by omega
        have htake : ((acceptedBytes (stream.take size)).map (fun rb => digitChar (rb % 10)) ++
            (acceptedBytes (stream.drop size)).map (fun rb => digitChar (rb % 10))).take
              (length - pre.length) =
            (acceptedBytes (stream.take size)).map (fun rb => digitChar (rb % 10)) ++
              ((acceptedBytes (stream.drop size)).map (fun rb => digitChar (rb % 10))).take
                (length - (pre.length + (acceptedBytes (stream.take size)).length)) := by
          rw [List.take_append_eq_append_take, List.take_of_length_le (by rw [hA]; omega),
            hA, hk]
        rw [h2.1, hsplit, List.map_append, htake, List.append_assoc]
      · rw [hres] at h hspec
        simp only [Option.some.injEq, Prod.mk.injEq, and_true] at h
        rw [← h]
        refine ⟨?_, by rw [hsplit, List.length_append]; omega⟩
        rw [hspec.1, hsplit, List.map_append, List.take_append_of_le_length
          (by simp only [List.length_map]; omega)]
    · simp only [readFull, if_neg hsize] at h
      split_ifs at h <;> simp at h

/-- More rounds do not change what the outer loop returns. -/
theorem randomNumbersLoop_fuel_succ (length size : Nat) :
    ∀ (fuel : Nat) (stream : List Nat) (b : List Char) (i : Nat) (res : String × Option String),
      randomNumbersLoop length size fuel stream b i = some res →
      randomNumbersLoop length size (fuel + 1) stream b i = some res := by
  intro fuel
  induction fuel with
  | zero =>
    intro stream b i res h
    simp [randomNumbersLoop] at h
  | succ fuel ih =>
    intro stream b i res h
    unfold randomNumbersLoop at h ⊢
    cases hread : readFull stream size with
    | error err => rw [hread] at h; exact h
    | ok p =>
      rw [hread] at h
      rcases p with ⟨r, rest⟩
      simp only at h ⊢
      rcases hres : randomNumbersRange length r b i with ⟨b2, i2⟩ | s
      · rw [hres] at h
        exact ih rest b2 i2 res h
      · rw [hres] at h
        exact h

/-- With a scratch buffer of at least one byte the outer loop returns, a string or an
error, within `stream.length + 1` rounds. -/
theorem randomNumbersLoop_returns (length size : Nat) (hsize : 0 < size) :
    ∀ (fuel : Nat) (stream : List Nat) (b : List Char) (i : Nat), stream.length < fuel →
      (randomNumbersLoop length size fuel stream b i).isSome = true := by
  intro fuel
  induction fuel with
  | zero => intro stream b i h; omega
  | succ fuel ih =>
    intro stream b i h
    unfold randomNumbersLoop
    by_cases hle : size ≤ stream.length
    · simp only [readFull, if_pos hle]
      rcases hres : randomNumbersRange length (stream.take size) b i with ⟨b2, i2⟩ | s
      · simp only
        apply ih
        rw [List.length_drop]
        omega
      · rfl
    · simp only [readFull, if_neg hle]
      split_ifs <;> rfl

/-- C20 (the generator's output is a fixed-length digit string). For every length from 1 to
255 and every byte stream on which `RandomNumbers length` returns a string (with no error),
the string has exactly `length` characters, each between '0' and '9', and its characters
are, in stream order, the decimal digits `b mod 10` of the first `length` bytes `b <= 249`
of the stream; bytes above 249 (`randomNumberMaxByte`) contribute nothing. -/
theorem random_numbers_digits (fuel length : Nat) (stream : List Nat) (s : String)
    (h1 : 1 ≤ length) (h255 : length ≤ 255)
    (hret : RandomNumbers fuel length stream = some (s, none)) :
    s.length = length ∧
    (∀ c ∈ s.data, '0' ≤ c ∧ c ≤ '9') ∧
    s.data = ((stream.filter (fun b => decide (b ≤ 249))).take length).map
      (fun b => digitChar (b % 10)) ∧
    randomNumberMaxByte = 249 := by
  unfold RandomNumbers at hret
  have h := randomNumbersLoop_spec length ((length + length / 4) % 256) h255 fuel stream []
    (List.replicate length (Char.ofNat 0)) s (by simpa using h1) (by simp) hret
  simp only [List.nil_append, List.length_nil, Nat.sub_zero, Nat.zero_add] at h
  rcases h with ⟨hs, hle⟩
  have hdata : s.data = ((acceptedBytes stream).take length).map
      (fun b => digitChar (b % 10)) := by
    rw [hs, List.map_take]
  refine ⟨?_, ?_, hdata, randomNumberMaxByte_eq⟩
  · show s.data.length = length
    rw [hdata, List.length_map, List.length_take]
    omega
  · intro c hc
    rw [hdata] at hc
    rcases List.mem_map.1 hc with ⟨b, _, rfl⟩
    exact digitChar_isDigit (b % 10) (Nat.mod_lt _ (by decide))

/-- A run for length 5 (scratch buffer of 6 bytes): the bytes 250 and 255 are skipped, the
first round leaves four digits, and the second round completes the code "12978". -/
theorem random_numbers_digits_witness :
    RandomNumbers 10 5 [1, 250, 22, 255, 249, 7, 8, 9, 3, 4, 0, 0] = some ("12978", none) ∧
    ("12978" : String).length = 5 ∧
    ("12978" : String).data =
      (([1, 250, 22, 255, 249, 7, 8, 9, 3, 4, 0, 0].filter
        (fun b => decide (b ≤ 249))).take 5).map (fun b => digitChar (b % 10)) :=
  have h := random_numbers_digits 10 5 [1, 250, 22, 255, 249, 7, 8, 9, 3, 4, 0, 0] "12978"
    (by decide) (by decide) (by decide)
  ⟨by decide, h.1, h.2.2.1⟩

/-! ### Lengths for which the generator does not return -/

/-- With a scratch buffer of size 0 a round reads nothing and changes neither the buffer nor
the counter, so the outer loop is still running after any number of rounds. -/
theorem randomNumbersLoop_size_zero (length : Nat) :
    ∀ (fuel : Nat) (stream : List Nat) (b : List Char) (i : Nat),
      randomNumbersLoop length 0 fuel stream b i = none := by
  intro fuel
  induction fuel with
  | zero => intro stream b i; rfl
  | succ fuel ih =>
    intro stream b i
    unfold randomNumbersLoop
    simp only [readFull, Nat.zero_le, if_true, List.take_zero, List.drop_zero,
      randomNumbersRange]
    exact ih stream b i

theorem scratch_size_zero_iff (length : Nat) (h : length ≤ 255) :
    (length + length / 4) % 256 = 0 ↔ length = 0 ∨ length = 205 := by
  omega

/-- C21 (`RandomNumbers` never returns for two lengths). The size `length + length/4` of the
scratch buffer, computed in 8-bit unsigned arithmetic, is 0 exactly when `length` is 0 or
205, and at least 1 for every other length from 1 to 255. For the lengths 0 and 205, on any
stream of bytes, a read of zero bytes never fails, every round reads zero bytes, leaves the
stream, the buffer and the counter as they were, and `RandomNumbers` has returned neither a
string nor an error after any number of rounds; for every other length it does return
within `stream.length + 1` rounds. -/
theorem random_numbers_never_returns :
    (∀ length : Nat, length ≤ 255 →
      ((length + length / 4) % 256 = 0 ↔ length = 0 ∨ length = 205)) ∧
    (∀ length : Nat, 1 ≤ length → length ≤ 255 → length ≠ 205 →
      1 ≤ (length + length / 4) % 256) ∧
    (∀ stream : List Nat, readFull stream 0 = Except.ok ([], stream)) ∧
    (∀ (length : Nat) (b : List Char) (i : Nat),
      randomNumbersRange length [] b i = Sum.inl (b, i)) ∧
    (∀ (fuel : Nat) (stream : List Nat),
      RandomNumbers fuel 0 stream = none ∧ RandomNumbers fuel 205 stream = none) ∧
    (∀ (length : Nat) (stream : List Nat), length ≤ 255 → length ≠ 0 → length ≠ 205 →
      (RandomNumbers (stream.length + 1) length stream).isSome = true) := by
  refine ⟨scratch_size_zero_iff, ?_, ?_, ?_, ?_, ?_⟩
  · intro length h1 h255 hne
    omega
  · intro stream
    simp [readFull]
  · intro length b i
    rfl
  · intro fuel stream
    exact ⟨randomNumbersLoop_size_zero 0 fuel stream _ 0,
      randomNumbersLoop_size_zero 205 fuel stream _ 0⟩
  · intro length stream h255 h0 h205
    unfold RandomNumbers
    apply randomNumbersLoop_returns
    · omega
    · omega

/-! ### Rejection sampling -/

theorem randomNumbersRange_skip (length : Nat) {rb : Nat} (h : 249 < rb) (rest : List Nat)
    (b : List Char) (i : Nat) :
    randomNumbersRange length (rb :: rest) b i = randomNumbersRange length rest b i := by
  have h2 : randomNumberMaxByte < rb := by rw [randomNumberMaxByte_eq]; exact h
  simp only [randomNumbersRange, if_pos h2]

theorem randomNumbersRange_accept (length : Nat) {rb : Nat} (h : rb ≤ 249) (rest : List Nat)
    (b : List Char) (i : Nat) :
    randomNumbersRange length (rb :: rest) b i =
      if (i + 1) % 256 = length then Sum.inr (String.mk (b.set i (digitChar (rb % 10))))
      else randomNumbersRange length rest (b.set i (digitChar (rb % 10))) ((i + 1) % 256) := by
  have h2 : ¬ randomNumberMaxByte < rb := by rw [randomNumberMaxByte_eq]; omega
  simp only [randomNumbersRange, if_neg h2, charset_getD]

set_option maxRecDepth 8192 in
theorem acceptedBytes_range_length : (acceptedBytes (List.range 256)).length = 250 := by
  rfl

theorem digitPreimages_length (d : Nat) (h : d < 10) : (digitPreimages d).length = 25 := by
  interval_cases d <;> rfl

/-- C22 (rejection sampling is unbiased). `randomNumberMaxByte` is 249; the loop skips a
byte exactly when it is above 249 and otherwise writes its digit `b mod 10`; there are 250
accepted byte values, and for every digit `d` from 0 to 9 exactly 25 of them have
`b mod 10 = d`. -/
theorem rejection_sampling_unbiased :
    randomNumberMaxByte = 249 ∧
    (∀ (length rb : Nat) (rest : List Nat) (b : List Char) (i : Nat), 249 < rb →
      randomNumbersRange length (rb :: rest) b i = randomNumbersRange length rest b i) ∧
    (∀ (length rb : Nat) (rest : List Nat) (b : List Char) (i : Nat), rb ≤ 249 →
      randomNumbersRange length (rb :: rest) b i =
        if (i + 1) % 256 = length then Sum.inr (String.mk (b.set i (digitChar (rb % 10))))
        else randomNumbersRange length rest (b.set i (digitChar (rb % 10)))
          ((i + 1) % 256)) ∧
    (∀ rb : Nat, rb ∈ acceptedBytes (List.range 256) ↔ rb ≤ 249) ∧
    (acceptedBytes (List.range 256)).length = 250 ∧
    (∀ d : Nat, d < 10 →
      (digitPreimages d).length = 25 ∧
      ∀ rb : Nat, rb ∈ digitPreimages d ↔ rb ≤ 249 ∧ rb % 10 = d) := by
  refine ⟨randomNumberMaxByte_eq,
    fun length rb rest b i h => randomNumbersRange_skip length h rest b i,
    fun length rb rest b i h => randomNumbersRange_accept length h rest b i, ?_,
    acceptedBytes_range_length, ?_⟩
  · intro rb
    simp only [acceptedBytes, List.mem_filter, List.mem_range, decide_eq_true_eq]
    omega
  · intro d hd
    refine ⟨digitPreimages_length d hd, ?_⟩
    intro rb
    simp only [digitPreimages, List.mem_filter, List.mem_range, Bool.and_eq_true,
      decide_eq_true_eq, beq_iff_eq, randomNumberMaxByte_eq]
    omega

/-! ### Reissue after consumption -/

/-- A successful consume changed exactly the matching Unused record to Used. -/
theorem UpdateOTPStatus_success {db : Ledger} (hwf : WellFormed db) (fl : Faults)
    (nowFunc : Nat → Time) (userID : Nat) (otp requestID : String)
    (h : (UpdateOTPStatus fl nowFunc db userID otp requestID).1 = none) :
    ∃ r ∈ db, r.user_id = userID ∧ r.otp = otp ∧ r.status = otpStatusUnused ∧
      (UpdateOTPStatus fl nowFunc db userID otp requestID).2 =
        markStatus db r otpStatusUsed := by
  rcases UpdateOTPStatus_cases fl nowFunc db userID otp requestID with
    ⟨hne, _⟩ | ⟨_, r, hf, _, h2⟩
  · exact absurd h hne
  · have hr : r ∈ db := List.mem_of_find?_eq_some hf
    have hp := List.find?_some hf
    simp only [Bool.and_eq_true, beq_iff_eq] at hp
    exact ⟨r, hr, hp.1.1, hp.1.2, hp.2, by rw [h2, updateStatus_eq_markStatus hwf hr]⟩

theorem withStatus_mem_markStatus {db : Ledger} {r : OTP} (hr : r ∈ db) (s : Nat) :
    withStatus r s ∈ markStatus db r s := by
  unfold markStatus
  exact List.mem_map.2 ⟨r, hr, by simp⟩

/-- C23 (reissue right after consumption). On a ledger with the key constraint and at most
one Unused record per user, after a call `UpdateOTPStatus userID otp` that returned `nil`
(it changed the matching Unused record `r` to Used), a `StoreOTP` for the same user on a
working database, at any clock value, also one before `r.expired_at`, returns `nil`, and
the committed ledger is the ledger after the consume followed by one new Unused record; the
consumed record is still in it with status Used. -/
theorem reissue_after_consumption (db : Ledger) (hwf : WellFormed db) (hsu : SingleUnused db)
    (fl : Faults) (nowFunc : Nat → Time) (userID : Nat) (otp requestID : String)
    (hconsumed : (UpdateOTPStatus fl nowFunc db userID otp requestID).1 = none) :
    ∃ r ∈ db, r.user_id = userID ∧ r.otp = otp ∧ r.status = otpStatusUnused ∧
      (UpdateOTPStatus fl nowFunc db userID otp requestID).2 =
        markStatus db r otpStatusUsed ∧
      ∀ (nowFunc2 : Nat → Time) (otp2 requestID2 : String),
        StoreOTP noFaults nowFunc2 (markStatus db r otpStatusUsed) userID otp2 requestID2 =
          (none, markStatus db r otpStatusUsed ++
            [newOTP (nextID db) userID otp2 requestID2 (nowFunc2 0 + 5 * Minute)]) ∧
        withStatus r otpStatusUsed ∈
          (StoreOTP noFaults nowFunc2 (markStatus db r otpStatusUsed) userID otp2
            requestID2).2 := by
  rcases UpdateOTPStatus_success hwf fl nowFunc userID otp requestID hconsumed with
    ⟨r, hr, hu, hc, hst, h2⟩
  refine ⟨r, hr, hu, hc, hst, h2, ?_⟩
  intro nowFunc2 otp2 requestID2
  have hwf1 : WellFormed (markStatus db r otpStatusUsed) := by
    rw [← updateStatus_eq_markStatus hwf hr]
    exact wellFormed_updateStatus hwf _ _
  have hno : ∀ y ∈ markStatus db r otpStatusUsed, y.user_id = userID →
      y.status ≠ otpStatusUnused := by
    intro y hy hyu
    exact no_unused_after_mark hsu hr hst (by decide) y hy (hyu.trans hu.symm)
  have hs := StoreOTP_first hwf1 hno nowFunc2 otp2 requestID2
  rw [nextID_markStatus hwf hr] at hs
  refine ⟨hs, ?_⟩
  rw [hs]
  exact List.mem_append_left _ (withStatus_mem_markStatus hr _)

/-- On the sample ledger the code of user 1 (it expires at minute 2) is consumed at minute
1; an issue for user 1 at that same minute then succeeds and appends a new Unused record
after the Used one. -/
theorem reissue_after_consumption_witness :
    (UpdateOTPStatus noFaults (fun _ => Minute) sampleLedger 1 "12345" "req-3").1 = none ∧
    StoreOTP noFaults (fun _ => Minute)
        (UpdateOTPStatus noFaults (fun _ => Minute) sampleLedger 1 "12345" "req-3").2
        1 "xxxxx" "fake-request-id" =
      (none, [withStatus sampleOTP otpStatusUsed, sampleUsed,
        newOTP 3 1 "xxxxx" "fake-request-id" (Minute + 5 * Minute)]) ∧
    (∃ r ∈ sampleLedger, r.user_id = 1 ∧ r.otp = "12345" ∧ r.status = otpStatusUnused ∧
      (UpdateOTPStatus noFaults (fun _ => Minute) sampleLedger 1 "12345" "req-3").2 =
        markStatus sampleLedger r otpStatusUsed ∧
      ∀ (nowFunc2 : Nat → Time) (otp2 requestID2 : String),
        StoreOTP noFaults nowFunc2 (markStatus sampleLedger r otpStatusUsed) 1 otp2
            requestID2 =
          (none, markStatus sampleLedger r otpStatusUsed ++
            [newOTP (nextID sampleLedger) 1 otp2 requestID2 (nowFunc2 0 + 5 * Minute)]) ∧
        withStatus r otpStatusUsed ∈
          (StoreOTP noFaults nowFunc2 (markStatus sampleLedger r otpStatusUsed) 1 otp2
            requestID2).2) :=
  ⟨by decide, by decide,
    reissue_after_consumption sampleLedger (by decide) (singleUnused_of_check (by decide))
      noFaults (fun _ => Minute) 1 "12345" "req-3" (by decide)⟩

/-! ### Loading the configuration -/

theorem validateKeys_eq_find? (getString : String → String) (keys : List String) :
    Config.validateKeys getString keys =
      (keys.find? (fun k => decide (getString k = ""))).map
        (fun k => "empty value for config key: " ++ k) := by
  induction keys with
  | nil => rfl
  | cons k ks ih =>
    by_cases h : getString k = ""
    · simp [Config.validateKeys, h]
    · simp [Config.validateKeys, h, ih]

theorem Load_read_error (e : String) (getString : String → String) :
    Config.Load (some e) getString = Config.validate getString := by
  unfold Config.Load
  cases Config.validate getString <;> rfl

/-- C24 (`config.Load` validates only when reading fails). When `viper.ReadInConfig`
returns `nil`, `Load` returns `nil` whatever the configured values are, also when a required
key is empty. When it returns an error, that error is dropped and `Load` returns what
`validate` returns: an error iff one of the five keys `http.port`, `db.address`, `db.name`,
`db.username`, `db.password` has an empty value, and then the error names the first empty
key in that order. -/
theorem load_validates_only_on_read_failure :
    Config.configKeys = ["http.port", "db.address", "db.name", "db.username", "db.password"] ∧
    (∀ getString : String → String, Config.Load none getString = none) ∧
    (∀ (e : String) (getString : String → String),
      Config.Load (some e) getString = Config.validate getString) ∧
    (∀ (e : String) (getString : String → String),
      Config.Load (some e) getString ≠ none ↔
        ∃ k ∈ Config.configKeys, getString k = "") ∧
    (∀ (e : String) (getString : String → String),
      Config.Load (some e) getString =
        (Config.configKeys.find? (fun k => decide (getString k = ""))).map
          (fun k => "empty value for config key: " ++ k)) ∧
    (∀ (e : String) (getString : String → String) (pre post : List String) (k : String),
      Config.configKeys = pre ++ k :: post → (∀ k2 ∈ pre, getString k2 ≠ "") →
      getString k = "" →
      Config.Load (some e) getString = some ("empty value for config key: " ++ k)) := by
  have hfind : ∀ (e : String) (getString : String → String),
      Config.Load (some e) getString =
        (Config.configKeys.find? (fun k => decide (getString k = ""))).map
          (fun k => "empty value for config key: " ++ k) := by
    intro e getString
    rw [Load_read_error]
    exact validateKeys_eq_find? getString Config.configKeys
  refine ⟨rfl, fun _ => rfl, Load_read_error, ?_, hfind, ?_⟩
  · intro e getString
    rw [hfind]
    constructor
    · intro h
      cases hf : Config.configKeys.find? (fun k => decide (getString k = "")) with
      | none => rw [hf] at h; exact absurd rfl h
      | some k =>
        have hk := List.find?_some hf
        exact ⟨k, List.mem_of_find?_eq_some hf, by simpa using hk⟩
    · rintro ⟨k, hk, hempty⟩ h
      cases hf : Config.configKeys.find? (fun k => decide (getString k = "")) with
      | none =>
        have := List.find?_eq_none.1 hf k hk
        simp [hempty] at this
      | some k2 => rw [hf] at h; simp at h
  · intro e getString pre post k hkeys hpre hk
    rw [hfind, hkeys, List.find?_append]
    have h1 : pre.find? (fun k => decide (getString k = "")) = none := by
      rw [List.find?_eq_none]
      intro k2 hk2
      simpa using hpre k2 hk2
    rw [h1]
    simp [hk]

/-- In the sample configuration `db.name` is empty: `Load` returns `nil` when the file was
read, and names `db.name` when reading failed. -/
theorem load_validates_only_on_read_failure_witness :
    Config.sampleConfig "db.name" = "" ∧
    Config.Load none Config.sampleConfig = none ∧
    Config.Load (some "config file not found") Config.sampleConfig =
      some "empty value for config key: db.name" :=
  ⟨by decide, load_validates_only_on_read_failure.2.1 Config.sampleConfig,
    load_validates_only_on_read_failure.2.2.2.2.2 "config file not found"
      Config.sampleConfig ["http.port", "db.address"] ["db.username", "db.password"]
      "db.name" rfl (by decide) (by decide)⟩

end Sqetest
